import Mathlib

/-!
Verification of the oni-save-parser Python repository: a shallow embedding of
its binary save-file codec (byte-stream reader/writer, type-template driven
value codec, component/entity/group codecs, envelope pipeline, header JSON,
and utility hash), together with theorems settling the frozen claims about it.

Modelling conventions, used consistently below:

* Python `bytes`/`str` values are modelled as `List Nat` (for `str`, the list
  of its UTF-8 code units; every string that the claims exercise is ASCII, so
  UTF-8 code units and code points coincide).
* Python `int` is `Int`; machine-width reads/writes convert through explicit
  `% 2^w` arithmetic.
* Python `float` values produced by `struct.unpack("<f"/"<d")` are modelled
  by their raw little-endian byte patterns (the unpack/pack pair is the
  identity on these patterns, and no claim inspects float arithmetic).
* Fallible code returns `Except PyErr`; each `PyErr` constructor names the
  Python exception class that the modelled code would raise.
* Unbounded recursion through the template table takes an explicit `fuel`
  argument; running out of fuel is the artificial `PyErr.outOfFuel` outcome,
  distinct from every genuine program error.
-/

namespace OniSave

/-- Python exception kinds that the embedded code can raise.  `corruption`
is `CorruptionError`, `versionMismatch` is `VersionMismatchError`; the others
name built-in Python exceptions raised by the modelled operations
(`AttributeError` for a missing method, `struct.error` for out-of-range pack
values, and so on).  `outOfFuel` is the embedding artifact for exhausted
recursion fuel. -/
inductive PyErr where
  | corruption
  | versionMismatch
  | attributeError
  | assertionError
  | typeError
  | keyError
  | valueError
  | decodeError
  | packError
  | outOfFuel
deriving DecidableEq, Repr

/-- Strings are lists of UTF-8 code units. -/
abbrev Str := List Nat

/-- Little-endian value of a byte list. -/
def leNat : List Nat → Nat
  | [] => 0
  | b :: bs => b + 256 * leNat bs

/-- Little-endian encoding of `m` on `w` bytes. -/
def natLE (w : Nat) (m : Nat) : List Nat :=
  match w with
  | 0 => []
  | w + 1 => (m % 256) :: natLE w (m / 256)

/-- Two's-complement reading of an unsigned value `u` of `bits` bits. -/
def toSigned (bits : Nat) (u : Nat) : Int :=
  if 2 ^ (bits - 1) ≤ u then (u : Int) - 2 ^ bits else (u : Int)

/-! ## Byte stream reader (`parser/parse.py`, class `BinaryParser`)

`BinaryParser` owns `data` and a mutable `offset`; we model its state as the
`BP` record and each method as a state-passing function. -/

/-- State of `BinaryParser`: the full byte buffer plus the current offset. -/
structure BP where
  data : List Nat
  offset : Nat
deriving DecidableEq, Repr

/-- Model of `BinaryParser._read_struct` / `read_bytes` for a nonnegative
count: bounds check (`CorruptionError` past the end), then the slice
`data[offset : offset+n]` and the advanced offset. -/
def bpRead (n : Nat) (s : BP) : Except PyErr (List Nat × BP) :=
  if s.data.length < s.offset + n then .error .corruption
  else .ok ((s.data.drop s.offset).take n, ⟨s.data, s.offset + n⟩)

/-- Model of `BinaryParser.read_bytes` with a Python `int` count, as called
with a possibly negative count (`sim_data` length is used unchecked).  For a
negative count the Python bounds check passes, the slice
`data[offset : offset+count]` resolves with Python's negative-index rule, and
the offset moves backwards. -/
def readBytesInt (count : Int) (s : BP) : Except PyErr (List Nat × BP) :=
  if 0 ≤ count then bpRead count.toNat s
  else
    let stop : Int := (s.offset : Int) + count
    let stopIdx : Nat := if stop < 0 then ((s.data.length : Int) + stop).toNat else stop.toNat
    .ok ((s.data.take stopIdx).drop s.offset, ⟨s.data, ((s.offset : Int) + count).toNat⟩)

/-- `BinaryParser.read_byte` (format `B`). -/
def readByte (s : BP) : Except PyErr (Int × BP) := do
  let (bs, s') ← bpRead 1 s
  .ok ((leNat bs : Int), s')

/-- `BinaryParser.read_boolean`: one byte, non-zero is true. -/
def readBoolean (s : BP) : Except PyErr (Bool × BP) := do
  let (b, s') ← readByte s
  .ok (b != 0, s')

/-- `BinaryParser.read_uint16` (format `<H`). -/
def readUint16 (s : BP) : Except PyErr (Int × BP) := do
  let (bs, s') ← bpRead 2 s
  .ok ((leNat bs : Int), s')

/-- `BinaryParser.read_int16` (format `<h`). -/
def readInt16 (s : BP) : Except PyErr (Int × BP) := do
  let (bs, s') ← bpRead 2 s
  .ok (toSigned 16 (leNat bs), s')

/-- `BinaryParser.read_uint32` (format `<I`). -/
def readUint32 (s : BP) : Except PyErr (Int × BP) := do
  let (bs, s') ← bpRead 4 s
  .ok ((leNat bs : Int), s')

/-- `BinaryParser.read_int32` (format `<i`). -/
def readInt32 (s : BP) : Except PyErr (Int × BP) := do
  let (bs, s') ← bpRead 4 s
  .ok (toSigned 32 (leNat bs), s')

/-- `BinaryParser.read_uint64` (format `<Q`). -/
def readUint64 (s : BP) : Except PyErr (Int × BP) := do
  let (bs, s') ← bpRead 8 s
  .ok ((leNat bs : Int), s')

/-- `BinaryParser.read_int64` (format `<q`). -/
def readInt64 (s : BP) : Except PyErr (Int × BP) := do
  let (bs, s') ← bpRead 8 s
  .ok (toSigned 64 (leNat bs), s')

/-- `BinaryParser.read_single` (format `<f`): the float is carried as its raw
four-byte pattern. -/
def readSingle (s : BP) : Except PyErr (List Nat × BP) := bpRead 4 s

/-- `BinaryParser.read_double` (format `<d`): raw eight-byte pattern. -/
def readDouble (s : BP) : Except PyErr (List Nat × BP) := bpRead 8 s

/-- `BinaryParser.read_chars`: `count` bytes decoded as ASCII; a byte outside
ASCII raises `UnicodeDecodeError`. -/
def readChars (n : Nat) (s : BP) : Except PyErr (Str × BP) := do
  let (bs, s') ← bpRead n s
  if bs.all (· < 128) then .ok (bs, s') else .error .decodeError

/-- `BinaryParser.read_klei_string`: `i32` length prefix; `-1` is null, `0`
empty, a length below `-1` raises `CorruptionError`, otherwise that many
UTF-8 bytes.  (UTF-8 re-decoding is the identity in the byte-level string
model.) -/
def readKleiString (s : BP) : Except PyErr (Option Str × BP) := do
  let (length, s') ← readInt32 s
  if length = -1 then .ok (Option.none, s')
  else if length = 0 then .ok (Option.some [], s')
  else if length < 0 then .error .corruption
  else do
    let (bs, s'') ← bpRead length.toNat s'
    .ok (Option.some bs, s'')

/-! ## Byte stream writer (`parser/unparse.py`, class `BinaryWriter`)

`BinaryWriter` only accumulates bytes, so each `write_*` method is modelled
as a function from the value to the emitted bytes; `struct.pack` range
failures surface as `PyErr.packError`. -/

/-- `BinaryWriter.write_byte` (format `B`). -/
def writeByte (v : Int) : Except PyErr (List Nat) :=
  if 0 ≤ v ∧ v < 256 then .ok [v.toNat] else .error .packError

/-- `BinaryWriter.write_sbyte` (format `b`). -/
def writeSbyte (v : Int) : Except PyErr (List Nat) :=
  if -128 ≤ v ∧ v < 128 then .ok [(v.emod 256).toNat] else .error .packError

/-- `BinaryWriter.write_boolean`. -/
def writeBoolean (b : Bool) : Except PyErr (List Nat) :=
  writeByte (if b then 1 else 0)

/-- `BinaryWriter.write_uint16` (format `<H`). -/
def writeUint16 (v : Int) : Except PyErr (List Nat) :=
  if 0 ≤ v ∧ v < 2 ^ 16 then .ok (natLE 2 v.toNat) else .error .packError

/-- `BinaryWriter.write_int16` (format `<h`). -/
def writeInt16 (v : Int) : Except PyErr (List Nat) :=
  if -2 ^ 15 ≤ v ∧ v < 2 ^ 15 then .ok (natLE 2 (v.emod (2 ^ 16)).toNat) else .error .packError

/-- `BinaryWriter.write_uint32` (format `<I`). -/
def writeUint32 (v : Int) : Except PyErr (List Nat) :=
  if 0 ≤ v ∧ v < 2 ^ 32 then .ok (natLE 4 v.toNat) else .error .packError

/-- `BinaryWriter.write_int32` (format `<i`). -/
def writeInt32 (v : Int) : Except PyErr (List Nat) :=
  if -2 ^ 31 ≤ v ∧ v < 2 ^ 31 then .ok (natLE 4 (v.emod (2 ^ 32)).toNat) else .error .packError

/-- `BinaryWriter.write_uint64` (format `<Q`). -/
def writeUint64 (v : Int) : Except PyErr (List Nat) :=
  if 0 ≤ v ∧ v < 2 ^ 64 then .ok (natLE 8 v.toNat) else .error .packError

/-- `BinaryWriter.write_int64` (format `<q`). -/
def writeInt64 (v : Int) : Except PyErr (List Nat) :=
  if -2 ^ 63 ≤ v ∧ v < 2 ^ 63 then .ok (natLE 8 (v.emod (2 ^ 64)).toNat) else .error .packError

/-- `BinaryWriter.write_single`: emits the raw four-byte pattern the float is
carried as. -/
def writeSingle (bs : List Nat) : Except PyErr (List Nat) :=
  if bs.length = 4 then .ok bs else .error .typeError

/-- `BinaryWriter.write_double`: raw eight-byte pattern. -/
def writeDouble (bs : List Nat) : Except PyErr (List Nat) :=
  if bs.length = 8 then .ok bs else .error .typeError

/-- `BinaryWriter.write_bytes`. -/
def writeBytes (bs : List Nat) : List Nat := bs

/-- `BinaryWriter.write_chars`: ASCII encoding, no length prefix. -/
def writeChars (s : Str) : Except PyErr (List Nat) :=
  if s.all (· < 128) then .ok s else .error .decodeError

/-- `BinaryWriter.write_klei_string`: `None` writes `-1`; otherwise the UTF-8
byte length then the bytes. -/
def writeKleiString (v : Option Str) : Except PyErr (List Nat) :=
  match v with
  | Option.none => writeInt32 (-1)
  | Option.some s => do
      let pre ← writeInt32 (s.length : Int)
      .ok (pre ++ s)

/-! ## Hash utility (`utils.py`, `get_sdbm32_lower_hash`)

Python `str.lower`/`str.upper` are modelled at ASCII precision (the claims
and the repository fixtures only exercise ASCII input). -/

/-- Python `str.lower` on an ASCII code point. -/
def pyLowerChar (c : Nat) : Nat :=
  if 65 ≤ c ∧ c ≤ 90 then c + 32 else c

/-- Python `str.upper` on an ASCII code point. -/
def pyUpperChar (c : Nat) : Nat :=
  if 97 ≤ c ∧ c ≤ 122 then c - 32 else c

/-- Truncation to a signed 32-bit value, i.e. `ctypes.c_int32(num).value`. -/
def wrap32 (x : Int) : Int :=
  let r := x.emod (2 ^ 32)
  if 2 ^ 31 ≤ r then r - 2 ^ 32 else r

/-- One SDBM step followed by the 32-bit signed truncation; `<< 6` and
`<< 16` on Python's arbitrary-precision ints are exact multiplications. -/
def sdbmStep (num : Int) (c : Nat) : Int :=
  wrap32 ((c : Int) + num * 64 + num * 65536 - num)

/-- `get_sdbm32_lower_hash`: empty string hashes to 0; otherwise lowercase
then fold `sdbmStep` left to right. -/
def get_sdbm32_lower_hash (s : List Nat) : Int :=
  if s = [] then 0
  else (s.map pyLowerChar).foldl sdbmStep 0

end OniSave

namespace OniSave

/-! ## Type system (`save_structure/type_templates/types.py`)

`SerializationTypeCode` values, used as numeric constants below:
UserDefined 0, SByte 1, Byte 2, Boolean 3, Int16 4, UInt16 5, Int32 6,
UInt32 7, Int64 8, UInt64 9, Single 10, Double 11, String 12,
Enumeration 13, Vector2I 14, Vector2 15, Vector3 16, Array 17, Pair 18,
Dictionary 19, List 20, HashSet 21, Queue 22, Colour 23. -/

/-- `TypeInfo`: info byte, optional template name, optional subtype list.
Python's `sub_types=None` and `sub_types=[]` are both modelled as `[]`; the
code distinguishes them only through assertions and `[0]` indexing, which
fail on both alike (modelled as `PyErr.assertionError`). -/
inductive TypeInfo where
  | mk (info : Nat) (tname : Option Str) (subs : List TypeInfo)
deriving Repr

/-- Field `info` of a `TypeInfo`. -/
def TypeInfo.info : TypeInfo → Nat
  | .mk i _ _ => i

/-- Field `template_name` of a `TypeInfo`. -/
def TypeInfo.tname : TypeInfo → Option Str
  | .mk _ t _ => t

/-- Field `sub_types` of a `TypeInfo`. -/
def TypeInfo.subs : TypeInfo → List TypeInfo
  | .mk _ _ s => s

/-- `get_type_code`: the low six bits of the info byte (`info & 0x3F`). -/
def getTypeCode (info : Nat) : Nat := info % 64

/-- `is_value_type`: flag bit `0x40`. -/
def isValueTypeInfo (info : Nat) : Bool := info / 64 % 2 = 1

/-- `is_generic_type`: flag bit `0x80`. -/
def isGenericTypeInfo (info : Nat) : Bool := info / 128 % 2 = 1

/-- `TypeTemplateMember`: a named field or property with its type. -/
structure TypeTemplateMember where
  name : Str
  type : TypeInfo
deriving Repr

/-- `TypeTemplate`: class name plus ordered field and property lists. -/
structure TypeTemplate where
  name : Str
  fields : List TypeTemplateMember
  properties : List TypeTemplateMember
deriving Repr

/-! ## Typed value trees

The heterogeneous Python values produced by `parse_by_type`.  Python `dict`
values (template objects, vectors, pairs) are ordered association lists;
Python has a single `None`, modelled by the single constructor `none`.
Colour values keep the raw channel bytes (`b/255.0` is injective, and
`frac_to_byte` maps each such float back to `b`). -/
inductive PyVal where
  | none
  | bool (b : Bool)
  | int (n : Int)
  | f32 (bs : List Nat)
  | f64 (bs : List Nat)
  | str (s : Str)
  | bytes (bs : List Nat)
  | colour (r g b a : Nat)
  | obj (fs : List (Str × PyVal))
  | tup (a b : PyVal)
  | list (xs : List PyVal)
deriving Repr

/-- Chars of the dict key `x`. -/
def keyX : Str := [120]

/-- Chars of the dict key `y`. -/
def keyY : Str := [121]

/-- Chars of the dict key `z`. -/
def keyZ : Str := [122]

/-- Chars of the dict key `key`. -/
def keyKey : Str := [107, 101, 121]

/-- Chars of the dict key `value`. -/
def keyValue : Str := [118, 97, 108, 117, 101]

/-- Python dict lookup `fs[k]` on an association list (keys are unique in
every dict the code builds). -/
def objGet (fs : List (Str × PyVal)) (k : Str) : Option PyVal :=
  (fs.find? (fun p => p.1 = k)).map (fun p => p.2)

/-- Tuple unpacking `for key, val in value`: every element must be a
two-tuple, else Python raises `TypeError`. -/
def tupList : List PyVal → Except PyErr (List (PyVal × PyVal))
  | [] => .ok []
  | .tup a b :: xs => do
      let rest ← tupList xs
      .ok ((a, b) :: rest)
  | _ :: _ => .error .typeError

/-- Template lookup `next((t for t in templates if t.name == name), None)`. -/
def findTemplate (templates : List TypeTemplate) (name : Str) : Option TypeTemplate :=
  templates.find? (fun t => t.name = name)

end OniSave

namespace OniSave

/-! ## Typed value codec, read side
(`save_structure/type_templates/type_data_parser.py`)

`parse_by_type` / `parse_by_template` recurse through the template table, so
they carry fuel; every `for _ in range(n)` loop is a helper that recurses on
the count with the same fuel. -/

mutual

/-- `parse_by_type`: dispatch on the type code of the descriptor.  The
`SByte` branch calls `parser.read_sbyte()`, a method `BinaryParser` does not
define, so Python raises `AttributeError` there. -/
def parse_by_type : Nat → List TypeTemplate → TypeInfo → BP → Except PyErr (PyVal × BP)
  | 0, _, _, _ => .error .outOfFuel
  | fuel + 1, templates, ti, s =>
    -- SerializationTypeCode(info & 0x3F); a value above 23 is not a member
    -- of the IntEnum, so the conversion raises ValueError
    if 23 < getTypeCode ti.info then .error .valueError
    else match getTypeCode ti.info with
    | 3 => do
        let (b, s') ← readBoolean s
        .ok (.bool b, s')
    | 2 => do
        let (n, s') ← readByte s
        .ok (.int n, s')
    | 1 => .error .attributeError
    | 4 => do
        let (n, s') ← readInt16 s
        .ok (.int n, s')
    | 5 => do
        let (n, s') ← readUint16 s
        .ok (.int n, s')
    | 6 => do
        let (n, s') ← readInt32 s
        .ok (.int n, s')
    | 7 => do
        let (n, s') ← readUint32 s
        .ok (.int n, s')
    | 8 => do
        let (n, s') ← readInt64 s
        .ok (.int n, s')
    | 9 => do
        let (n, s') ← readUint64 s
        .ok (.int n, s')
    | 10 => do
        let (bs, s') ← readSingle s
        .ok (.f32 bs, s')
    | 11 => do
        let (bs, s') ← readDouble s
        .ok (.f64 bs, s')
    | 12 => do
        let (v, s') ← readKleiString s
        match v with
        | Option.none => .ok (.none, s')
        | Option.some str => .ok (.str str, s')
    | 13 => do
        -- enums are stored as int32
        let (n, s') ← readInt32 s
        .ok (.int n, s')
    | 15 => do
        -- Vector2: {"x": f32, "y": f32}
        let (x, s1) ← readSingle s
        let (y, s2) ← readSingle s1
        .ok (.obj [(keyX, .f32 x), (keyY, .f32 y)], s2)
    | 14 => do
        -- Vector2I: {"x": i32, "y": i32}
        let (x, s1) ← readInt32 s
        let (y, s2) ← readInt32 s1
        .ok (.obj [(keyX, .int x), (keyY, .int y)], s2)
    | 16 => do
        -- Vector3: {"x": f32, "y": f32, "z": f32}
        let (x, s1) ← readSingle s
        let (y, s2) ← readSingle s1
        let (z, s3) ← readSingle s2
        .ok (.obj [(keyX, .f32 x), (keyY, .f32 y), (keyZ, .f32 z)], s3)
    | 23 => do
        -- Colour: four channel bytes, each divided by 255.0 on read
        let (r, s1) ← readByte s
        let (g, s2) ← readByte s1
        let (b, s3) ← readByte s2
        let (a, s4) ← readByte s3
        .ok (.colour r.toNat g.toNat b.toNat a.toNat, s4)
    | 17 => parseArrayLike fuel templates ti s
    | 20 => parseArrayLike fuel templates ti s
    | 21 => parseArrayLike fuel templates ti s
    | 22 => parseArrayLike fuel templates ti s
    | 19 =>
        -- Dictionary
        match ti.subs with
        | [keyType, valueType] => do
            let (_, s1) ← readInt32 s
            let (count, s2) ← readInt32 s1
            if count = -1 then .ok (.none, s2)
            else if count < 0 then .error .corruption
            else do
              -- values parsed first, then keys, paired positionally
              let (vals, s3) ← parseValuesN fuel templates valueType count.toNat s2
              let (keys, s4) ← parseValuesN fuel templates keyType count.toNat s3
              .ok (.list ((keys.zip vals).map (fun p => .tup p.1 p.2)), s4)
        | _ => .error .assertionError
    | 18 =>
        -- Pair
        match ti.subs with
        | [keyType, valueType] => do
            let (dataLength, s1) ← readInt32 s
            if dataLength < 0 then .ok (.none, s1)
            else do
              let (k, s2) ← parse_by_type fuel templates keyType s1
              let (v, s3) ← parse_by_type fuel templates valueType s2
              .ok (.obj [(keyKey, k), (keyValue, v)], s3)
        | _ => .error .assertionError
    | 0 =>
        -- UserDefined
        match ti.tname with
        | Option.none => .error .assertionError
        | Option.some templateName => do
            let (dataLength, s1) ← readInt32 s
            if dataLength < 0 then .ok (.none, s1)
            else do
              let (fs, s2) ← parse_by_template fuel templates templateName s1
              if ((s2.offset - s1.offset : Nat) : Int) ≠ dataLength then .error .corruption
              else .ok (.obj fs, s2)
    | _ => .error .corruption
termination_by fuel _ _ _ => (fuel, 0)
decreasing_by all_goals (simp_wf; omega)

/-- `_parse_array_like` (Array, List, HashSet, Queue): data-length read and
ignored, element count with `-1` null, byte arrays as raw bytes, value-type
elements template-packed, reference elements via `parse_by_type`. -/
def parseArrayLike : Nat → List TypeTemplate → TypeInfo → BP → Except PyErr (PyVal × BP)
  | 0, _, _, _ => .error .outOfFuel
  | fuel + 1, templates, ti, s =>
    match ti.subs with
    | [] => .error .assertionError
    | elementType :: _ => do
        let (_, s1) ← readInt32 s
        let (length, s2) ← readInt32 s1
        if length = -1 then .ok (.none, s2)
        else if length < 0 then .error .corruption
        else if 23 < getTypeCode elementType.info then .error .valueError
        else if getTypeCode elementType.info = 2 then do
          let (bs, s3) ← bpRead length.toNat s2
          .ok (.bytes bs, s3)
        else if isValueTypeInfo elementType.info then
          if getTypeCode elementType.info ≠ 0 then .error .corruption
          else match elementType.tname with
          | Option.none => .error .assertionError
          | Option.some templateName => do
              let (objs, s3) ← parseTemplateElemsN fuel templates templateName length.toNat s2
              .ok (.list (objs.map PyVal.obj), s3)
        else do
          let (els, s3) ← parseValuesN fuel templates elementType length.toNat s2
          .ok (.list els, s3)
termination_by fuel _ _ _ => (fuel, 0)
decreasing_by all_goals (simp_wf; omega)

/-- Element loop `for _ in range(n): parse_by_type(...)`. -/
def parseValuesN (fuel : Nat) (templates : List TypeTemplate) (ti : TypeInfo) :
    Nat → BP → Except PyErr (List PyVal × BP)
  | 0, s => .ok ([], s)
  | n + 1, s => do
      let (v, s1) ← parse_by_type fuel templates ti s
      let (vs, s2) ← parseValuesN fuel templates ti n s1
      .ok (v :: vs, s2)
termination_by n _ => (fuel, n + 1)
decreasing_by all_goals (simp_wf; omega)

/-- Value-type element loop `for _ in range(n): parse_by_template(...)`. -/
def parseTemplateElemsN (fuel : Nat) (templates : List TypeTemplate) (templateName : Str) :
    Nat → BP → Except PyErr (List (List (Str × PyVal)) × BP)
  | 0, s => .ok ([], s)
  | n + 1, s => do
      let (o, s1) ← parse_by_template fuel templates templateName s
      let (os, s2) ← parseTemplateElemsN fuel templates templateName n s1
      .ok (o :: os, s2)
termination_by n _ => (fuel, n + 1)
decreasing_by all_goals (simp_wf; omega)

/-- `parse_by_template`: look the template up by name (`CorruptionError` if
absent), then parse the fields and then the properties in declared order,
building the result dict in insertion order. -/
def parse_by_template : Nat → List TypeTemplate → Str → BP → Except PyErr (List (Str × PyVal) × BP)
  | 0, _, _, _ => .error .outOfFuel
  | fuel + 1, templates, templateName, s =>
    match findTemplate templates templateName with
    | Option.none => .error .corruption
    | Option.some t => do
        let (fvals, s1) ← parseMembers fuel templates t.fields s
        let (pvals, s2) ← parseMembers fuel templates t.properties s1
        .ok (fvals ++ pvals, s2)
termination_by fuel _ _ _ => (fuel, 0)
decreasing_by all_goals (simp_wf; omega)

/-- Member loop of `parse_by_template`. -/
def parseMembers (fuel : Nat) (templates : List TypeTemplate) :
    List TypeTemplateMember → BP → Except PyErr (List (Str × PyVal) × BP)
  | [], s => .ok ([], s)
  | m :: ms, s => do
      let (v, s1) ← parse_by_type fuel templates m.type s
      let (vs, s2) ← parseMembers fuel templates ms s1
      .ok ((m.name, v) :: vs, s2)
termination_by ms _ => (fuel, ms.length + 1)
decreasing_by all_goals (simp_wf; omega)

end

end OniSave

namespace OniSave

/-! ## Typed value codec, write side
(`save_structure/type_templates/type_data_parser.py`, `unparse_by_type` and
friends).  Each function returns the bytes the corresponding Python code
appends to its writer; composite branches build their body in a temporary
buffer, measure it, and emit the length first, exactly as the source. -/

/-- Dict access `value[k]`: `KeyError` when the key is missing. -/
def pyValGet (v : Option PyVal) : Except PyErr PyVal :=
  match v with
  | Option.none => .error .keyError
  | Option.some x => .ok x

/-- `write_single(value[k])`: dict access then the float write. -/
def pyValSingle (v : Option PyVal) : Except PyErr (List Nat) := do
  match (← pyValGet v) with
  | .f32 bs => writeSingle bs
  | _ => .error .typeError

/-- `write_int32(value[k])`: dict access then the int write. -/
def pyValInt32 (v : Option PyVal) : Except PyErr (List Nat) := do
  match (← pyValGet v) with
  | .int n => writeInt32 n
  | _ => .error .typeError

mutual

/-- `unparse_by_type`: dispatch on the descriptor's type code and write the
value.  Branch-by-branch mirror of the source; value-shape mismatches map to
the Python exception the operation would raise (`TypeError` for an attribute
or index on the wrong type, `KeyError` for a missing dict key). -/
def unparse_by_type : Nat → List TypeTemplate → PyVal → TypeInfo → Except PyErr (List Nat)
  | 0, _, _, _ => .error .outOfFuel
  | fuel + 1, templates, value, ti =>
    if 23 < getTypeCode ti.info then .error .valueError
    else match getTypeCode ti.info with
    | 3 =>
        -- write_boolean(value); claims only exercise genuine bools
        (match value with
         | .bool b => writeBoolean b
         | _ => .error .typeError)
    | 2 =>
        (match value with
         | .int n => writeByte n
         | _ => .error .typeError)
    | 1 =>
        (match value with
         | .int n => writeSbyte n
         | _ => .error .typeError)
    | 4 =>
        (match value with
         | .int n => writeInt16 n
         | _ => .error .typeError)
    | 5 =>
        (match value with
         | .int n => writeUint16 n
         | _ => .error .typeError)
    | 6 =>
        (match value with
         | .int n => writeInt32 n
         | _ => .error .typeError)
    | 7 =>
        (match value with
         | .int n => writeUint32 n
         | _ => .error .typeError)
    | 8 =>
        (match value with
         | .int n => writeInt64 n
         | _ => .error .typeError)
    | 9 =>
        (match value with
         | .int n => writeUint64 n
         | _ => .error .typeError)
    | 10 =>
        (match value with
         | .f32 bs => writeSingle bs
         | _ => .error .typeError)
    | 11 =>
        (match value with
         | .f64 bs => writeDouble bs
         | _ => .error .typeError)
    | 12 =>
        (match value with
         | .none => writeKleiString Option.none
         | .str s => writeKleiString (Option.some s)
         | _ => .error .typeError)
    | 13 =>
        (match value with
         | .int n => writeInt32 n
         | _ => .error .typeError)
    | 15 =>
        (match value with
         | .obj fs => do
             let x ← pyValSingle (objGet fs keyX)
             let y ← pyValSingle (objGet fs keyY)
             .ok (x ++ y)
         | _ => .error .typeError)
    | 14 =>
        (match value with
         | .obj fs => do
             let x ← pyValInt32 (objGet fs keyX)
             let y ← pyValInt32 (objGet fs keyY)
             .ok (x ++ y)
         | _ => .error .typeError)
    | 16 =>
        (match value with
         | .obj fs => do
             let x ← pyValSingle (objGet fs keyX)
             let y ← pyValSingle (objGet fs keyY)
             let z ← pyValSingle (objGet fs keyZ)
             .ok (x ++ y ++ z)
         | _ => .error .typeError)
    | 23 =>
        -- frac_to_byte(round(b/255.0 * 255)) = b on the stored channel bytes
        (match value with
         | .colour r g b a => .ok [r, g, b, a]
         | _ => .error .typeError)
    | 17 => unparseArrayLike fuel templates value ti
    | 20 => unparseArrayLike fuel templates value ti
    | 21 => unparseArrayLike fuel templates value ti
    | 22 => unparseArrayLike fuel templates value ti
    | 19 =>
        -- Dictionary: null writes data-length 4 then count -1; otherwise all
        -- values first, then all keys, preserving list order
        match ti.subs with
        | [keyType, valueType] =>
            (match value with
             | .none => do
                 let a ← writeInt32 4
                 let b ← writeInt32 (-1)
                 .ok (a ++ b)
             | .list xs => do
                 let prs ← tupList xs
                 let valueBytes ← unparseValuesN fuel templates (prs.map (fun p => p.2)) valueType
                 let keyBytes ← unparseValuesN fuel templates (prs.map (fun p => p.1)) keyType
                 let dl ← writeInt32 ((valueBytes ++ keyBytes).length : Int)
                 let cnt ← writeInt32 (xs.length : Int)
                 .ok (dl ++ cnt ++ valueBytes ++ keyBytes)
             | _ => .error .typeError)
        | _ => .error .assertionError
    | 18 =>
        -- Pair: null writes data-length 4 then -1 (the Dictionary-style null,
        -- see the claims about it); otherwise key then value behind a
        -- measured data-length
        match ti.subs with
        | [keyType, valueType] =>
            (match value with
             | .none => do
                 let a ← writeInt32 4
                 let b ← writeInt32 (-1)
                 .ok (a ++ b)
             | .obj fs => do
                 let k ← pyValGet (objGet fs keyKey)
                 let v ← pyValGet (objGet fs keyValue)
                 let keyBytes ← unparse_by_type fuel templates k keyType
                 let valueBytes ← unparse_by_type fuel templates v valueType
                 let dl ← writeInt32 ((keyBytes ++ valueBytes).length : Int)
                 .ok (dl ++ keyBytes ++ valueBytes)
             | _ => .error .typeError)
        | _ => .error .assertionError
    | 0 =>
        -- UserDefined: null writes the bare -1 marker
        match ti.tname with
        | Option.none => .error .assertionError
        | Option.some templateName =>
            (match value with
             | .none => writeInt32 (-1)
             | .obj fs => do
                 let body ← unparse_by_template fuel templates templateName fs
                 let dl ← writeInt32 (body.length : Int)
                 .ok (dl ++ body)
             | _ => .error .typeError)
    | _ => .error .corruption
termination_by fuel _ _ _ => (fuel, 0)
decreasing_by all_goals (simp_wf; omega)

/-- `_unparse_array_like`: null collections write data-length 4 then count
-1; byte arrays write raw bytes; value-type elements are template-packed;
reference elements go through `unparse_by_type`.  The data-length excludes
the count. -/
def unparseArrayLike : Nat → List TypeTemplate → PyVal → TypeInfo → Except PyErr (List Nat)
  | 0, _, _, _ => .error .outOfFuel
  | fuel + 1, templates, value, ti =>
    match ti.subs with
    | [] => .error .assertionError
    | elementType :: _ =>
        match value with
        | .none => do
            let a ← writeInt32 4
            let b ← writeInt32 (-1)
            .ok (a ++ b)
        | _ =>
            if 23 < getTypeCode elementType.info then .error .valueError
            else if getTypeCode elementType.info = 2 then
              match value with
              | .bytes bs => do
                  let dl ← writeInt32 (bs.length : Int)
                  let cnt ← writeInt32 (bs.length : Int)
                  .ok (dl ++ cnt ++ bs)
              | _ => .error .corruption
            else if isValueTypeInfo elementType.info then
              match elementType.tname with
              | Option.none => .error .assertionError
              | Option.some templateName =>
                  match value with
                  | .list xs => do
                      let body ← unparseTemplateElemsN fuel templates templateName xs
                      let dl ← writeInt32 (body.length : Int)
                      let cnt ← writeInt32 (xs.length : Int)
                      .ok (dl ++ cnt ++ body)
                  | _ => .error .assertionError
            else
              match value with
              | .list xs => do
                  let body ← unparseValuesN fuel templates xs elementType
                  let dl ← writeInt32 (body.length : Int)
                  let cnt ← writeInt32 (xs.length : Int)
                  .ok (dl ++ cnt ++ body)
              | _ => .error .assertionError
termination_by fuel _ _ _ => (fuel, 0)
decreasing_by all_goals (simp_wf; omega)

/-- Element write loop: concatenation of the per-element bytes in order. -/
def unparseValuesN (fuel : Nat) (templates : List TypeTemplate) :
    List PyVal → TypeInfo → Except PyErr (List Nat)
  | [], _ => .ok []
  | v :: vs, ti => do
      let b ← unparse_by_type fuel templates v ti
      let rest ← unparseValuesN fuel templates vs ti
      .ok (b ++ rest)
termination_by vs _ => (fuel, vs.length + 1)
decreasing_by all_goals (simp_wf; omega)

/-- Value-type element write loop (each element must be a dict). -/
def unparseTemplateElemsN (fuel : Nat) (templates : List TypeTemplate) (templateName : Str) :
    List PyVal → Except PyErr (List Nat)
  | [] => .ok []
  | .obj fs :: xs => do
      let b ← unparse_by_template fuel templates templateName fs
      let rest ← unparseTemplateElemsN fuel templates templateName xs
      .ok (b ++ rest)
  | _ :: _ => .error .typeError
termination_by xs => (fuel, xs.length + 1)
decreasing_by all_goals (simp_wf; omega)

/-- `unparse_by_template`: template lookup (`CorruptionError` if absent),
then the fields and the properties in declared order, each looked up in the
object dict (`KeyError` if missing). -/
def unparse_by_template : Nat → List TypeTemplate → Str → List (Str × PyVal) → Except PyErr (List Nat)
  | 0, _, _, _ => .error .outOfFuel
  | fuel + 1, templates, templateName, fs =>
    match findTemplate templates templateName with
    | Option.none => .error .corruption
    | Option.some t => do
        let fieldBytes ← unparseMembers fuel templates t.fields fs
        let propBytes ← unparseMembers fuel templates t.properties fs
        .ok (fieldBytes ++ propBytes)
termination_by fuel _ _ _ => (fuel, 0)
decreasing_by all_goals (simp_wf; omega)

/-- Member write loop of `unparse_by_template`. -/
def unparseMembers (fuel : Nat) (templates : List TypeTemplate) :
    List TypeTemplateMember → List (Str × PyVal) → Except PyErr (List Nat)
  | [], _ => .ok []
  | m :: ms, fs =>
      match objGet fs m.name with
      | Option.none => .error .keyError
      | Option.some v => do
          let b ← unparse_by_type fuel templates v m.type
          let rest ← unparseMembers fuel templates ms fs
          .ok (b ++ rest)
termination_by ms _ => (fuel, ms.length + 1)
decreasing_by all_goals (simp_wf; omega)

end

end OniSave

namespace OniSave

/-! ## Identifier validation and type descriptors
(`save_structure/type_templates/template_parser.py` and
`type_info_parser.py`) -/

/-- `validate_dotnet_identifier_name`: rejects null/empty names, names of
512 or more characters, and names containing a control character
(0x00-0x1F); returns the name unchanged otherwise. -/
def validateDotnetIdentifierName (name : Option Str) : Except PyErr Str :=
  match name with
  | Option.none => .error .corruption
  | Option.some n =>
      if n.length = 0 then .error .corruption
      else if 512 ≤ n.length then .error .corruption
      else if n.any (· < 32) then .error .corruption
      else .ok n

/-- Members of `GENERIC_TYPES`: Pair, Dictionary, List, HashSet,
UserDefined, Queue. -/
def isGenericCapable (code : Nat) : Bool :=
  code = 18 ∨ code = 19 ∨ code = 20 ∨ code = 21 ∨ code = 0 ∨ code = 22

mutual

/-- `parse_type_info`: tag byte; class name for UserDefined/Enumeration
(null name is `CorruptionError`); byte-prefixed child list when the generic
bit is set (`CorruptionError` when the code is not generic-capable); exactly
one child for Array. -/
def parseTypeInfo : Nat → BP → Except PyErr (TypeInfo × BP)
  | 0, _ => .error .outOfFuel
  | fuel + 1, s => do
      let (infoI, s1) ← readByte s
      let info := infoI.toNat
      if 23 < getTypeCode info then .error .valueError
      else do
        let (templateName, s2) ←
          if getTypeCode info = 0 ∨ getTypeCode info = 13 then do
            let (n, s') ← readKleiString s1
            match n with
            | Option.none => .error .corruption
            | Option.some nm => .ok (Option.some nm, s')
          else .ok ((Option.none : Option Str), s1)
        if isGenericTypeInfo info then
          if ¬ isGenericCapable (getTypeCode info) then .error .corruption
          else do
            let (cntI, s3) ← readByte s2
            let (subs, s4) ← parseTypeInfoN fuel cntI.toNat s3
            .ok (.mk info templateName subs, s4)
        else if getTypeCode info = 17 then do
          let (sub, s3) ← parseTypeInfo fuel s2
          .ok (.mk info templateName [sub], s3)
        else .ok (.mk info templateName [], s2)
termination_by fuel _ => (fuel, 0)
decreasing_by all_goals (simp_wf; omega)

/-- Child-descriptor loop of `parse_type_info`. -/
def parseTypeInfoN (fuel : Nat) : Nat → BP → Except PyErr (List TypeInfo × BP)
  | 0, s => .ok ([], s)
  | n + 1, s => do
      let (ti, s1) ← parseTypeInfo fuel s
      let (tis, s2) ← parseTypeInfoN fuel n s1
      .ok (ti :: tis, s2)
termination_by n _ => (fuel, n + 1)
decreasing_by all_goals (simp_wf; omega)

end

mutual

/-- `unparse_type_info`: tag byte, class name where required, then either
the byte-prefixed child list (generic bit) or the single Array child. -/
def unparseTypeInfo : Nat → TypeInfo → Except PyErr (List Nat)
  | 0, _ => .error .outOfFuel
  | fuel + 1, ti => do
      let tag ← writeByte (ti.info : Int)
      let nameBytes ←
        if getTypeCode ti.info = 0 ∨ getTypeCode ti.info = 13 then
          writeKleiString ti.tname
        else .ok []
      if isGenericTypeInfo ti.info then do
        let cnt ← writeByte (ti.subs.length : Int)
        let subBytes ← unparseTypeInfoN fuel ti.subs
        .ok (tag ++ nameBytes ++ cnt ++ subBytes)
      else if getTypeCode ti.info = 17 then
        match ti.subs with
        | [] => .error .assertionError
        | sub :: _ => do
            let subBytes ← unparseTypeInfo fuel sub
            .ok (tag ++ nameBytes ++ subBytes)
      else .ok (tag ++ nameBytes)
termination_by fuel _ => (fuel, 0)
decreasing_by all_goals (simp_wf; omega)

/-- Child-descriptor write loop. -/
def unparseTypeInfoN (fuel : Nat) : List TypeInfo → Except PyErr (List Nat)
  | [] => .ok []
  | ti :: tis => do
      let b ← unparseTypeInfo fuel ti
      let rest ← unparseTypeInfoN fuel tis
      .ok (b ++ rest)
termination_by tis => (fuel, tis.length + 1)
decreasing_by all_goals (simp_wf; omega)

end

/-- Member loop of `parse_template`: a validated name then a descriptor,
`n` times.  `n` is `int(count)` of a Python `range`, so the caller passes
`Int.toNat` of the parsed count (a negative count iterates zero times). -/
def parseTemplateMembersN (fuel : Nat) : Nat → BP → Except PyErr (List TypeTemplateMember × BP)
  | 0, s => .ok ([], s)
  | n + 1, s => do
      let (nameRaw, s1) ← readKleiString s
      let name ← validateDotnetIdentifierName nameRaw
      let (ty, s2) ← parseTypeInfo fuel s1
      let (ms, s3) ← parseTemplateMembersN fuel n s2
      .ok (⟨name, ty⟩ :: ms, s3)

/-- `parse_template`: validated class name, `i32 field_count`,
`i32 property_count`, then the field entries and the property entries.  The
counts feed Python `range` loops, so negative counts produce empty member
lists without any error. -/
def parse_template (fuel : Nat) (s : BP) : Except PyErr (TypeTemplate × BP) := do
  let (nameRaw, s1) ← readKleiString s
  let name ← validateDotnetIdentifierName nameRaw
  let (fieldCount, s2) ← readInt32 s1
  let (propCount, s3) ← readInt32 s2
  let (fields, s4) ← parseTemplateMembersN fuel fieldCount.toNat s3
  let (properties, s5) ← parseTemplateMembersN fuel propCount.toNat s4
  .ok (⟨name, fields, properties⟩, s5)

/-- Member write loop of `unparse_template`. -/
def unparseTemplateMembersN (fuel : Nat) : List TypeTemplateMember → Except PyErr (List Nat)
  | [] => .ok []
  | m :: ms => do
      let nameBytes ← writeKleiString (Option.some m.name)
      let tyBytes ← unparseTypeInfo fuel m.type
      let rest ← unparseTemplateMembersN fuel ms
      .ok (nameBytes ++ tyBytes ++ rest)

/-- `unparse_template`: class name, both counts, then fields and
properties in declared order. -/
def unparse_template (fuel : Nat) (t : TypeTemplate) : Except PyErr (List Nat) := do
  let nameBytes ← writeKleiString (Option.some t.name)
  let fc ← writeInt32 (t.fields.length : Int)
  let pc ← writeInt32 (t.properties.length : Int)
  let fieldBytes ← unparseTemplateMembersN fuel t.fields
  let propBytes ← unparseTemplateMembersN fuel t.properties
  .ok (nameBytes ++ fc ++ pc ++ fieldBytes ++ propBytes)

/-- Template loop of `parse_templates`. -/
def parseTemplatesN (fuel : Nat) : Nat → BP → Except PyErr (List TypeTemplate × BP)
  | 0, s => .ok ([], s)
  | n + 1, s => do
      let (t, s1) ← parse_template fuel s
      let (ts, s2) ← parseTemplatesN fuel n s1
      .ok (t :: ts, s2)

/-- `parse_templates`: `i32 template_count` then that many templates (a
negative count iterates zero times, as a Python `range`). -/
def parse_templates (fuel : Nat) (s : BP) : Except PyErr (List TypeTemplate × BP) := do
  let (count, s1) ← readInt32 s
  parseTemplatesN fuel count.toNat s1

/-- Template write loop. -/
def unparseTemplatesN (fuel : Nat) : List TypeTemplate → Except PyErr (List Nat)
  | [] => .ok []
  | t :: ts => do
      let b ← unparse_template fuel t
      let rest ← unparseTemplatesN fuel ts
      .ok (b ++ rest)

/-- `unparse_templates`: the count then each template in order. -/
def unparse_templates (fuel : Nat) (ts : List TypeTemplate) : Except PyErr (List Nat) := do
  let cnt ← writeInt32 (ts.length : Int)
  let body ← unparseTemplatesN fuel ts
  .ok (cnt ++ body)

end OniSave

namespace OniSave

/-! ## Game objects (`save_structure/game_objects/`)

`types.py` dataclasses; `Vector3`/`Quaternion` float components are carried
as raw four-byte patterns. -/

/-- `Vector3` (position or scale). -/
structure PVec3 where
  x : List Nat
  y : List Nat
  z : List Nat
deriving Repr

/-- `Quaternion` rotation. -/
structure PQuat where
  x : List Nat
  y : List Nat
  z : List Nat
  w : List Nat
deriving Repr

mutual

/-- `GameObjectBehavior`: component name, optional parsed template data,
optional structured Storage extra data, and the preserved raw trailing
bytes. -/
inductive GameObjectBehavior where
  | mk (name : Str) (template_data : Option (List (Str × PyVal)))
      (extra_data : Option (List StoredItem)) (extra_raw : List Nat)

/-- One stored entity of a `Storage` component: the dict
`{"name", "position", "rotation", "scale", "folder", "behaviors"}`. -/
inductive StoredItem where
  | mk (name : Str) (position : PVec3) (rotation : PQuat) (scale : PVec3)
      (folder : Int) (behaviors : List GameObjectBehavior)

end

/-- Field `name` of a behavior. -/
def GameObjectBehavior.name : GameObjectBehavior → Str
  | .mk n _ _ _ => n

/-- Field `template_data` of a behavior. -/
def GameObjectBehavior.template_data : GameObjectBehavior → Option (List (Str × PyVal))
  | .mk _ t _ _ => t

/-- Field `extra_data` of a behavior. -/
def GameObjectBehavior.extra_data : GameObjectBehavior → Option (List StoredItem)
  | .mk _ _ e _ => e

/-- Field `extra_raw` of a behavior. -/
def GameObjectBehavior.extra_raw : GameObjectBehavior → List Nat
  | .mk _ _ _ r => r

/-- `GameObject`: transform, folder byte, ordered component list. -/
structure GameObject where
  position : PVec3
  rotation : PQuat
  scale : PVec3
  folder : Int
  behaviors : List GameObjectBehavior

/-- `GameObjectGroup`: prefab name and its instances. -/
structure GameObjectGroup where
  prefab_name : Str
  objects : List GameObject

/-- Chars of the component name `Storage`. -/
def strStorage : Str := [83, 116, 111, 114, 97, 103, 101]

/-- `parse_vector3`: three singles. -/
def parseVector3 (s : BP) : Except PyErr (PVec3 × BP) := do
  let (x, s1) ← readSingle s
  let (y, s2) ← readSingle s1
  let (z, s3) ← readSingle s2
  .ok (⟨x, y, z⟩, s3)

/-- `parse_quaternion`: four singles. -/
def parseQuaternion (s : BP) : Except PyErr (PQuat × BP) := do
  let (x, s1) ← readSingle s
  let (y, s2) ← readSingle s1
  let (z, s3) ← readSingle s2
  let (w, s4) ← readSingle s3
  .ok (⟨x, y, z, w⟩, s4)

mutual

/-- `parse_behavior` (`behavior_parser.py`): validated component name, `i32`
data length (negative is `CorruptionError`), then the template payload.
The `try/except CorruptionError` around `parse_by_template` catches every
`CorruptionError` raised inside the payload parse — not only the
template-not-found case its comment describes — and recovers by skipping
`data_length` bytes and recording `template_data = None` with the skipped
bytes preserved (`data[start : start+data_length]`, clipped at the buffer
end as a Python slice).  A `Storage` component then parses its stored-item
list; finally the unconsumed remainder of the declared payload is preserved
as `extra_raw` (negative remainder is `CorruptionError`). -/
def parse_behavior : Nat → List TypeTemplate → BP → Except PyErr (GameObjectBehavior × BP)
  | 0, _, _ => .error .outOfFuel
  | fuel + 1, templates, s => do
      let (nameRaw, s1) ← readKleiString s
      match nameRaw with
      | Option.none => .error .corruption
      | Option.some nameR => do
          let name ← validateDotnetIdentifierName (Option.some nameR)
          let (dataLength, s2) ← readInt32 s1
          if dataLength < 0 then .error .corruption
          else
            let start := s2.offset
            match parse_by_template fuel templates name s2 with
            | .error .corruption =>
                let newOff := start + dataLength.toNat
                .ok (.mk name Option.none Option.none ((s2.data.take newOff).drop start),
                     ⟨s2.data, newOff⟩)
            | .error e => .error e
            | .ok (templateData, s3) => do
                let (extraData, s4) ←
                  if name = strStorage then do
                    let (itemCount, s4) ← readInt32 s3
                    if itemCount = 0 then .ok (Option.some ([] : List StoredItem), s4)
                    else do
                      let (items, s5) ← parseStoredItemsN fuel templates itemCount.toNat s4
                      .ok (Option.some items, s5)
                  else .ok ((Option.none : Option (List StoredItem)), s3)
                let remaining : Int := dataLength - ((s4.offset - start : Nat) : Int)
                if remaining < 0 then .error .corruption
                else if 0 < remaining then do
                  let (extraRaw, s5) ← bpRead remaining.toNat s4
                  .ok (.mk name (Option.some templateData) extraData extraRaw, s5)
                else .ok (.mk name (Option.some templateData) extraData [], s4)
termination_by fuel _ _ => (fuel, 0)
decreasing_by all_goals (simp_wf; omega)

/-- Stored-item loop of the `Storage` branch: a validated prefab name (null
is `CorruptionError`) then a full game object, `n` times. -/
def parseStoredItemsN (fuel : Nat) (templates : List TypeTemplate) :
    Nat → BP → Except PyErr (List StoredItem × BP)
  | 0, s => .ok ([], s)
  | n + 1, s => do
      let (prefabRaw, s1) ← readKleiString s
      match prefabRaw with
      | Option.none => .error .corruption
      | Option.some prefabR => do
          let prefab ← validateDotnetIdentifierName (Option.some prefabR)
          let (obj, s2) ← parse_game_object fuel templates s1
          let (items, s3) ← parseStoredItemsN fuel templates n s2
          .ok (.mk prefab obj.position obj.rotation obj.scale obj.folder obj.behaviors :: items, s3)
termination_by n _ => (fuel, n + 1)
decreasing_by all_goals (simp_wf; omega)

/-- `parse_game_object` (`object_parser.py`): position, rotation, scale,
folder byte, then `i32 behavior_count` (negative is `CorruptionError`) and
that many behaviors. -/
def parse_game_object : Nat → List TypeTemplate → BP → Except PyErr (GameObject × BP)
  | 0, _, _ => .error .outOfFuel
  | fuel + 1, templates, s => do
      let (position, s1) ← parseVector3 s
      let (rotation, s2) ← parseQuaternion s1
      let (scale, s3) ← parseVector3 s2
      let (folder, s4) ← readByte s3
      let (behaviorCount, s5) ← readInt32 s4
      if behaviorCount < 0 then .error .corruption
      else do
        let (behaviors, s6) ← parseBehaviorsN fuel templates behaviorCount.toNat s5
        .ok (⟨position, rotation, scale, folder, behaviors⟩, s6)
termination_by fuel _ _ => (fuel, 0)
decreasing_by all_goals (simp_wf; omega)

/-- Behavior loop of `parse_game_object`. -/
def parseBehaviorsN (fuel : Nat) (templates : List TypeTemplate) :
    Nat → BP → Except PyErr (List GameObjectBehavior × BP)
  | 0, s => .ok ([], s)
  | n + 1, s => do
      let (b, s1) ← parse_behavior fuel templates s
      let (bs, s2) ← parseBehaviorsN fuel templates n s1
      .ok (b :: bs, s2)
termination_by n _ => (fuel, n + 1)
decreasing_by all_goals (simp_wf; omega)

end

mutual

/-- `unparse_behavior`: component name, then the measured payload: template
data when present, the Storage stored-item block when applicable, then the
preserved `extra_raw` bytes. -/
def unparse_behavior : Nat → List TypeTemplate → GameObjectBehavior → Except PyErr (List Nat)
  | 0, _, _ => .error .outOfFuel
  | fuel + 1, templates, b => do
      let nameBytes ← writeKleiString (Option.some b.name)
      let templateBytes ←
        match b.template_data with
        | Option.some fs => unparse_by_template fuel templates b.name fs
        | Option.none => .ok []
      let storageBytes ←
        match b.extra_data with
        | Option.some items =>
            if b.name = strStorage then do
              let cnt ← writeInt32 (items.length : Int)
              let itemBytes ← unparseStoredItemsN fuel templates items
              .ok (cnt ++ itemBytes)
            else .ok []
        | Option.none => .ok []
      let body := templateBytes ++ storageBytes ++ b.extra_raw
      let dl ← writeInt32 (body.length : Int)
      .ok (nameBytes ++ dl ++ body)
termination_by fuel _ _ => (fuel, 0)
decreasing_by all_goals (simp_wf; omega)

/-- Stored-item write loop: prefab name then the reconstructed game
object. -/
def unparseStoredItemsN (fuel : Nat) (templates : List TypeTemplate) :
    List StoredItem → Except PyErr (List Nat)
  | [] => .ok []
  | .mk name position rotation scale folder behaviors :: items => do
      let nameBytes ← writeKleiString (Option.some name)
      let objBytes ← unparse_game_object fuel templates ⟨position, rotation, scale, folder, behaviors⟩
      let rest ← unparseStoredItemsN fuel templates items
      .ok (nameBytes ++ objBytes ++ rest)
termination_by items => (fuel, items.length + 1)
decreasing_by all_goals (simp_wf; omega)

/-- `unparse_game_object`: transform, folder, behavior count, then each
behavior. -/
def unparse_game_object : Nat → List TypeTemplate → GameObject → Except PyErr (List Nat)
  | 0, _, _ => .error .outOfFuel
  | fuel + 1, templates, obj => do
      let px ← writeSingle obj.position.x
      let py ← writeSingle obj.position.y
      let pz ← writeSingle obj.position.z
      let rx ← writeSingle obj.rotation.x
      let ry ← writeSingle obj.rotation.y
      let rz ← writeSingle obj.rotation.z
      let rw ← writeSingle obj.rotation.w
      let sx ← writeSingle obj.scale.x
      let sy ← writeSingle obj.scale.y
      let sz ← writeSingle obj.scale.z
      let folder ← writeByte obj.folder
      let cnt ← writeInt32 (obj.behaviors.length : Int)
      let behaviorBytes ← unparseBehaviorsN fuel templates obj.behaviors
      .ok (px ++ py ++ pz ++ rx ++ ry ++ rz ++ rw ++ sx ++ sy ++ sz ++ folder ++ cnt ++ behaviorBytes)
termination_by fuel _ _ => (fuel, 0)
decreasing_by all_goals (simp_wf; omega)

/-- Behavior write loop. -/
def unparseBehaviorsN (fuel : Nat) (templates : List TypeTemplate) :
    List GameObjectBehavior → Except PyErr (List Nat)
  | [] => .ok []
  | b :: bs => do
      let bb ← unparse_behavior fuel templates b
      let rest ← unparseBehaviorsN fuel templates bs
      .ok (bb ++ rest)
termination_by bs => (fuel, bs.length + 1)
decreasing_by all_goals (simp_wf; omega)

end

/-- Object loop of `parse_game_object_group`. -/
def parseObjectsN (fuel : Nat) (templates : List TypeTemplate) :
    Nat → BP → Except PyErr (List GameObject × BP)
  | 0, s => .ok ([], s)
  | n + 1, s => do
      let (o, s1) ← parse_game_object fuel templates s
      let (os, s2) ← parseObjectsN fuel templates n s1
      .ok (o :: os, s2)

/-- `parse_game_object_group` (`group_parser.py`): validated prefab name
(null is `CorruptionError`), `i32 instance_count` and `i32 data_length`
(each negative is `CorruptionError`), the instances, then the consumed-bytes
check against `data_length`. -/
def parse_game_object_group (fuel : Nat) (templates : List TypeTemplate) (s : BP) :
    Except PyErr (GameObjectGroup × BP) := do
  let (prefabRaw, s1) ← readKleiString s
  match prefabRaw with
  | Option.none => .error .corruption
  | Option.some prefabR => do
      let prefab ← validateDotnetIdentifierName (Option.some prefabR)
      let (instanceCount, s2) ← readInt32 s1
      if instanceCount < 0 then .error .corruption
      else do
        let (dataLength, s3) ← readInt32 s2
        if dataLength < 0 then .error .corruption
        else do
          let start := s3.offset
          let (objects, s4) ← parseObjectsN fuel templates instanceCount.toNat s3
          if ((s4.offset - start : Nat) : Int) ≠ dataLength then .error .corruption
          else .ok (⟨prefab, objects⟩, s4)

/-- Object write loop of `unparse_game_object_group`. -/
def unparseObjectsN (fuel : Nat) (templates : List TypeTemplate) :
    List GameObject → Except PyErr (List Nat)
  | [] => .ok []
  | o :: os => do
      let ob ← unparse_game_object fuel templates o
      let rest ← unparseObjectsN fuel templates os
      .ok (ob ++ rest)

/-- `unparse_game_object_group`: prefab name, instance count, then the
measured instance block behind its length. -/
def unparse_game_object_group (fuel : Nat) (templates : List TypeTemplate)
    (g : GameObjectGroup) : Except PyErr (List Nat) := do
  let nameBytes ← writeKleiString (Option.some g.prefab_name)
  let cnt ← writeInt32 (g.objects.length : Int)
  let body ← unparseObjectsN fuel templates g.objects
  let dl ← writeInt32 (body.length : Int)
  .ok (nameBytes ++ cnt ++ dl ++ body)

/-- Group loop of `parse_game_objects`. -/
def parseGroupsN (fuel : Nat) (templates : List TypeTemplate) :
    Nat → BP → Except PyErr (List GameObjectGroup × BP)
  | 0, s => .ok ([], s)
  | n + 1, s => do
      let (g, s1) ← parse_game_object_group fuel templates s
      let (gs, s2) ← parseGroupsN fuel templates n s1
      .ok (g :: gs, s2)

/-- `parse_game_objects` (`parser.py`): `i32 group_count` (negative is
`CorruptionError`) then that many groups. -/
def parse_game_objects (fuel : Nat) (templates : List TypeTemplate) (s : BP) :
    Except PyErr (List GameObjectGroup × BP) := do
  let (groupCount, s1) ← readInt32 s
  if groupCount < 0 then .error .corruption
  else parseGroupsN fuel templates groupCount.toNat s1

/-- Group write loop of `unparse_game_objects`. -/
def unparseGroupsN (fuel : Nat) (templates : List TypeTemplate) :
    List GameObjectGroup → Except PyErr (List Nat)
  | [] => .ok []
  | g :: gs => do
      let gb ← unparse_game_object_group fuel templates g
      let rest ← unparseGroupsN fuel templates gs
      .ok (gb ++ rest)

/-- `unparse_game_objects`: group count then each group. -/
def unparse_game_objects (fuel : Nat) (templates : List TypeTemplate)
    (groups : List GameObjectGroup) : Except PyErr (List Nat) := do
  let cnt ← writeInt32 (groups.length : Int)
  let body ← unparseGroupsN fuel templates groups
  .ok (cnt ++ body)

end OniSave

namespace OniSave

/-! ## Header and its game-info JSON (`save_structure/header.py`)

The header parser decodes the JSON region with `json.loads` into a
`SaveGameInfo` dataclass and the writer re-serializes it with `json.dumps`
(default separators, `ensure_ascii` defaults).  Both stdlib functions are
modelled below at the precision the save format uses: objects, arrays,
double-quoted strings, integers, booleans and `null`; every string the
claims exercise is ASCII. -/

/-- JSON values. -/
inductive JVal where
  | jnull
  | jbool (b : Bool)
  | jnum (n : Int)
  | jstr (s : Str)
  | jarr (xs : List JVal)
  | jobj (fs : List (Str × JVal))
deriving Repr

/-- Lowercase hex digit char of a nibble. -/
def hexDigitLower (n : Nat) : Nat := if n < 10 then 48 + n else 87 + n

/-- Escaping of one string byte per `json.dumps` with `ensure_ascii`:
quote and backslash get a backslash escape, the five short control escapes
apply, other control bytes and 0x7F become `\u00xx`.  (Bytes at 0x80 and
above belong to non-ASCII code points, which no modelled payload
contains; they pass through.) -/
def jsonEscapeChar (b : Nat) : List Nat :=
  if b = 34 then [92, 34]
  else if b = 92 then [92, 92]
  else if b = 8 then [92, 98]
  else if b = 9 then [92, 116]
  else if b = 10 then [92, 110]
  else if b = 12 then [92, 102]
  else if b = 13 then [92, 114]
  else if b < 32 ∨ b = 127 then
    [92, 117, 48, 48, hexDigitLower (b / 16), hexDigitLower (b % 16)]
  else [b]

/-- Decimal digits of a natural number. -/
def natDecimal (n : Nat) : Str := (Nat.toDigits 10 n).map (fun c => c.toNat)

/-- Python decimal form of an integer. -/
def intDecimal (n : Int) : Str :=
  if n < 0 then 45 :: natDecimal (-n).toNat else natDecimal n.toNat

/-- Comma-space separated concatenation, as `json.dumps`'s default item
separator produces. -/
def joinCommaSpace : List Str → Str
  | [] => []
  | [x] => x
  | x :: xs => x ++ [44, 32] ++ joinCommaSpace xs

mutual

/-- `json.dumps` with default arguments: `", "` between items, `": "`
between a key and its value, no sorting, minimal float-free grammar. -/
def jsonDumps : JVal → Str
  | .jnull => [110, 117, 108, 108]
  | .jbool true => [116, 114, 117, 101]
  | .jbool false => [102, 97, 108, 115, 101]
  | .jnum n => intDecimal n
  | .jstr s => [34] ++ (s.map jsonEscapeChar).flatten ++ [34]
  | .jarr xs => [91] ++ joinCommaSpace (jsonDumpsList xs) ++ [93]
  | .jobj fs => [123] ++ joinCommaSpace (jsonDumpsMembers fs) ++ [125]

/-- Array items of `jsonDumps`. -/
def jsonDumpsList : List JVal → List Str
  | [] => []
  | x :: xs => jsonDumps x :: jsonDumpsList xs

/-- Object members of `jsonDumps`: `"key": value`. -/
def jsonDumpsMembers : List (Str × JVal) → List Str
  | [] => []
  | (k, v) :: fs =>
      ([34] ++ (k.map jsonEscapeChar).flatten ++ [34, 58, 32] ++ jsonDumps v) :: jsonDumpsMembers fs

end

/-- JSON whitespace skip (space, tab, LF, CR). -/
def jsonSkipWs : Str → Str
  | [] => []
  | c :: cs => if c = 32 ∨ c = 9 ∨ c = 10 ∨ c = 13 then jsonSkipWs cs else c :: cs

/-- Hex digit value for the JSON reader. -/
def jsonHexNibble (h : Nat) : Except Unit Nat :=
  if 48 ≤ h ∧ h ≤ 57 then .ok (h - 48)
  else if 97 ≤ h ∧ h ≤ 102 then .ok (h - 87)
  else if 65 ≤ h ∧ h ≤ 70 then .ok (h - 55)
  else .error ()

/-- Short escape value for the JSON reader. -/
def jsonShortEscape (e : Nat) : Except Unit Nat :=
  if e = 34 then .ok 34
  else if e = 92 then .ok 92
  else if e = 47 then .ok 47
  else if e = 98 then .ok 8
  else if e = 116 then .ok 9
  else if e = 110 then .ok 10
  else if e = 102 then .ok 12
  else if e = 114 then .ok 13
  else .error ()

/-- String-body scan of the JSON reader: bytes until the closing quote,
with the standard backslash escapes (`\uXXXX` is restricted to the
`\u00xx` range the writer produces). -/
def jsonScanString : Str → Except Unit (Str × Str)
  | [] => .error ()
  | 34 :: rest => .ok ([], rest)
  | 92 :: e :: rest =>
      if e = 117 then
        match rest with
        | h1 :: h2 :: h3 :: h4 :: rest' => do
            let d1 ← jsonHexNibble h1
            let d2 ← jsonHexNibble h2
            let d3 ← jsonHexNibble h3
            let d4 ← jsonHexNibble h4
            let code := ((d1 * 16 + d2) * 16 + d3) * 16 + d4
            if code < 128 then do
              let (s, rest'') ← jsonScanString rest'
              .ok (code :: s, rest'')
            else .error ()
        | _ => .error ()
      else do
        let c ← jsonShortEscape e
        let (s, rest') ← jsonScanString rest
        .ok (c :: s, rest')
  | c :: rest =>
      if c < 32 then .error ()
      else do
        let (s, rest') ← jsonScanString rest
        .ok (c :: s, rest')

/-- Digit scan of the JSON reader. -/
def jsonScanDigits : Str → (Str × Str)
  | [] => ([], [])
  | c :: rest =>
      if 48 ≤ c ∧ c ≤ 57 then
        let (ds, rest') := jsonScanDigits rest
        (c :: ds, rest')
      else ([], c :: rest)

/-- Value of a digit string. -/
def digitsVal : Str → Nat → Nat
  | [], acc => acc
  | d :: ds, acc => digitsVal ds (acc * 10 + (d - 48))

mutual

/-- Recursive-descent `json.loads` value reader over the byte text (integer
numbers only: the game-info record carries no floats). -/
def jsonParseValue : Nat → Str → Except Unit (JVal × Str)
  | 0, _ => .error ()
  | fuel + 1, text =>
    match jsonSkipWs text with
    | [] => .error ()
    | c :: rest =>
        if c = 123 then
          match jsonSkipWs rest with
          | 125 :: rest' => .ok (.jobj [], rest')
          | rest' => do
              let (fs, rest'') ← jsonParseMembers fuel rest'
              .ok (.jobj fs, rest'')
        else if c = 91 then
          match jsonSkipWs rest with
          | 93 :: rest' => .ok (.jarr [], rest')
          | rest' => do
              let (xs, rest'') ← jsonParseItems fuel rest'
              .ok (.jarr xs, rest'')
        else if c = 34 then do
          let (s, rest') ← jsonScanString rest
          .ok (.jstr s, rest')
        else if c = 116 then
          match rest with
          | 114 :: 117 :: 101 :: rest' => .ok (.jbool true, rest')
          | _ => .error ()
        else if c = 102 then
          match rest with
          | 97 :: 108 :: 115 :: 101 :: rest' => .ok (.jbool false, rest')
          | _ => .error ()
        else if c = 110 then
          match rest with
          | 117 :: 108 :: 108 :: rest' => .ok (.jnull, rest')
          | _ => .error ()
        else if c = 45 then
          match jsonScanDigits rest with
          | ([], _) => .error ()
          | (ds, rest') => .ok (.jnum (-(digitsVal ds 0 : Int)), rest')
        else if 48 ≤ c ∧ c ≤ 57 then
          match jsonScanDigits (c :: rest) with
          | ([], _) => .error ()
          | (ds, rest') => .ok (.jnum (digitsVal ds 0 : Int), rest')
        else .error ()
termination_by fuel _ => (fuel, 0)
decreasing_by all_goals (simp_wf; omega)

/-- Object member list: `"key" : value` separated by commas, ended by a
closing brace. -/
def jsonParseMembers : Nat → Str → Except Unit (List (Str × JVal) × Str)
  | 0, _ => .error ()
  | fuel + 1, text =>
    match jsonSkipWs text with
    | 34 :: rest => do
        let (k, rest1) ← jsonScanString rest
        match jsonSkipWs rest1 with
        | 58 :: rest2 => do
            let (v, rest3) ← jsonParseValue fuel rest2
            match jsonSkipWs rest3 with
            | 44 :: rest4 => do
                let (fs, rest5) ← jsonParseMembers fuel rest4
                .ok ((k, v) :: fs, rest5)
            | 125 :: rest4 => .ok ([(k, v)], rest4)
            | _ => .error ()
        | _ => .error ()
    | _ => .error ()
termination_by fuel _ => (fuel, 0)
decreasing_by all_goals (simp_wf; omega)

/-- Array item list. -/
def jsonParseItems : Nat → Str → Except Unit (List JVal × Str)
  | 0, _ => .error ()
  | fuel + 1, text => do
      let (v, rest) ← jsonParseValue fuel text
      match jsonSkipWs rest with
      | 44 :: rest' => do
          let (xs, rest'') ← jsonParseItems fuel rest'
          .ok (v :: xs, rest'')
      | 93 :: rest' => .ok ([v], rest')
      | _ => .error ()
termination_by fuel _ => (fuel, 0)
decreasing_by all_goals (simp_wf; omega)

end

/-- `json.loads`: one value, then only trailing whitespace. -/
def jsonLoads (text : Str) : Except Unit JVal := do
  let (v, rest) ← jsonParseValue (text.length + 1) text
  if jsonSkipWs rest = [] then .ok v else .error ()

end OniSave

namespace OniSave

/-- Chars of `numberOfCycles`. -/
def keyNumberOfCycles : Str := [110, 117, 109, 98, 101, 114, 79, 102, 67, 121, 99, 108, 101, 115]

/-- Chars of `numberOfDuplicants`. -/
def keyNumberOfDuplicants : Str := [110, 117, 109, 98, 101, 114, 79, 102, 68, 117, 112, 108, 105, 99, 97, 110, 116, 115]

/-- Chars of `baseName`. -/
def keyBaseName : Str := [98, 97, 115, 101, 78, 97, 109, 101]

/-- Chars of `isAutoSave`. -/
def keyIsAutoSave : Str := [105, 115, 65, 117, 116, 111, 83, 97, 118, 101]

/-- Chars of `originalSaveName`. -/
def keyOriginalSaveName : Str := [111, 114, 105, 103, 105, 110, 97, 108, 83, 97, 118, 101, 78, 97, 109, 101]

/-- Chars of `saveMajorVersion`. -/
def keySaveMajorVersion : Str := [115, 97, 118, 101, 77, 97, 106, 111, 114, 86, 101, 114, 115, 105, 111, 110]

/-- Chars of `saveMinorVersion`. -/
def keySaveMinorVersion : Str := [115, 97, 118, 101, 77, 105, 110, 111, 114, 86, 101, 114, 115, 105, 111, 110]

/-- Chars of `clusterId`. -/
def keyClusterId : Str := [99, 108, 117, 115, 116, 101, 114, 73, 100]

/-- Chars of `sandboxEnabled`. -/
def keySandboxEnabled : Str := [115, 97, 110, 100, 98, 111, 120, 69, 110, 97, 98, 108, 101, 100]

/-- Chars of `colonyGuid`. -/
def keyColonyGuid : Str := [99, 111, 108, 111, 110, 121, 71, 117, 105, 100]

/-- Chars of `dlcId`. -/
def keyDlcId : Str := [100, 108, 99, 73, 100]

/-- `SaveGameInfo` dataclass. -/
structure SaveGameInfo where
  number_of_cycles : Int
  number_of_duplicants : Int
  base_name : Str
  is_auto_save : Bool
  original_save_name : Str
  save_major_version : Int
  save_minor_version : Int
  cluster_id : Str
  sandbox_enabled : Bool
  colony_guid : Str
  dlc_id : Str
deriving Repr

/-- `SaveGameInfo.to_dict`, in its insertion order. -/
def gameInfoToDict (gi : SaveGameInfo) : JVal :=
  .jobj
    [ (keyNumberOfCycles, .jnum gi.number_of_cycles)
    , (keyNumberOfDuplicants, .jnum gi.number_of_duplicants)
    , (keyBaseName, .jstr gi.base_name)
    , (keyIsAutoSave, .jbool gi.is_auto_save)
    , (keyOriginalSaveName, .jstr gi.original_save_name)
    , (keySaveMajorVersion, .jnum gi.save_major_version)
    , (keySaveMinorVersion, .jnum gi.save_minor_version)
    , (keyClusterId, .jstr gi.cluster_id)
    , (keySandboxEnabled, .jbool gi.sandbox_enabled)
    , (keyColonyGuid, .jstr gi.colony_guid)
    , (keyDlcId, .jstr gi.dlc_id)
    ]

/-- Python dict lookup on a parsed JSON object (a duplicated key keeps its
last value, as successive dict assignment does). -/
def jobjGet (fs : List (Str × JVal)) (k : Str) : Option JVal :=
  (fs.reverse.find? (fun p => p.1 = k)).map (fun p => p.2)

/-- Required int field of `SaveGameInfo.from_dict`: `KeyError` when absent.
The dataclass performs no type check; the typed embedding rejects a
mistyped field with `TypeError`, a case no modelled document produces. -/
def jsonIntField (fs : List (Str × JVal)) (k : Str) : Except PyErr Int :=
  match jobjGet fs k with
  | Option.none => .error .keyError
  | Option.some (.jnum n) => .ok n
  | Option.some _ => .error .typeError

/-- Required string field of `SaveGameInfo.from_dict`. -/
def jsonStrField (fs : List (Str × JVal)) (k : Str) : Except PyErr Str :=
  match jobjGet fs k with
  | Option.none => .error .keyError
  | Option.some (.jstr s) => .ok s
  | Option.some _ => .error .typeError

/-- Required bool field of `SaveGameInfo.from_dict`. -/
def jsonBoolField (fs : List (Str × JVal)) (k : Str) : Except PyErr Bool :=
  match jobjGet fs k with
  | Option.none => .error .keyError
  | Option.some (.jbool b) => .ok b
  | Option.some _ => .error .typeError

/-- `SaveGameInfo.from_dict`: the eleven required fields; indexing a
non-dict document raises `TypeError`. -/
def gameInfoFromDict (j : JVal) : Except PyErr SaveGameInfo :=
  match j with
  | .jobj fs => do
      let cycles ← jsonIntField fs keyNumberOfCycles
      let dups ← jsonIntField fs keyNumberOfDuplicants
      let baseName ← jsonStrField fs keyBaseName
      let autoSave ← jsonBoolField fs keyIsAutoSave
      let origName ← jsonStrField fs keyOriginalSaveName
      let major ← jsonIntField fs keySaveMajorVersion
      let minor ← jsonIntField fs keySaveMinorVersion
      let cluster ← jsonStrField fs keyClusterId
      let sandbox ← jsonBoolField fs keySandboxEnabled
      let guid ← jsonStrField fs keyColonyGuid
      let dlc ← jsonStrField fs keyDlcId
      .ok ⟨cycles, dups, baseName, autoSave, origName, major, minor, cluster, sandbox, guid, dlc⟩
  | _ => .error .typeError

/-- `SaveGameHeader` dataclass. -/
structure SaveGameHeader where
  build_version : Int
  header_version : Int
  is_compressed : Bool
  game_info : SaveGameInfo
deriving Repr

/-- `parse_header`: `u32 build_version`, `u32 header_size`,
`u32 header_version`, a `u32` compression flag when the header version is at
least 1, then `header_size` bytes of game-info JSON.  A JSON decode failure
or a missing record key becomes `CorruptionError`. -/
def parse_header (s : BP) : Except PyErr (SaveGameHeader × BP) := do
  let (buildVersion, s1) ← readUint32 s
  let (headerSize, s2) ← readUint32 s1
  let (headerVersion, s3) ← readUint32 s2
  let (isCompressed, s4) ←
    if 1 ≤ headerVersion then do
      let (flag, s') ← readUint32 s3
      .ok (flag != 0, s')
    else .ok (false, s3)
  let (infoBytes, s5) ← bpRead headerSize.toNat s4
  match jsonLoads infoBytes with
  | .error _ => .error .corruption
  | .ok j =>
      match gameInfoFromDict j with
      | .error .keyError => .error .corruption
      | .error e => .error e
      | .ok gameInfo => .ok (⟨buildVersion, headerVersion, isCompressed, gameInfo⟩, s5)

/-- `unparse_header`: re-serializes the game info with `json.dumps`, then
writes build version, the JSON byte length, header version, the compression
flag (header version at least 1 only) and the JSON bytes. -/
def unparse_header (h : SaveGameHeader) : Except PyErr (List Nat) := do
  let infoBytes := jsonDumps (gameInfoToDict h.game_info)
  let b ← writeUint32 h.build_version
  let hs ← writeUint32 (infoBytes.length : Int)
  let hv ← writeUint32 h.header_version
  let flag ←
    if 1 ≤ h.header_version then writeUint32 (if h.is_compressed then 1 else 0)
    else .ok []
  .ok (b ++ hs ++ hv ++ flag ++ infoBytes)

end OniSave

namespace OniSave

/-! ## Save game envelope (`save_structure/save_game.py`)

`zlib` is external to the codec: `parse_save_game` takes the inflate
function as a parameter (a decompression failure maps to `CorruptionError`)
and `unparse_save_game` takes the deflate function.  Every claim below runs
with the compression flag clear, where both parameters are unused. -/

/-- Chars of `world`. -/
def strWorld : Str := [119, 111, 114, 108, 100]

/-- Chars of `Klei.SaveFileRoot`. -/
def strSaveFileRoot : Str := [75, 108, 101, 105, 46, 83, 97, 118, 101, 70, 105, 108, 101, 82, 111, 111, 116]

/-- Chars of `Game+Settings`. -/
def strGameSettings : Str := [71, 97, 109, 101, 43, 83, 101, 116, 116, 105, 110, 103, 115]

/-- Chars of the `KSAV` magic (`SAVE_HEADER`). -/
def strKSAV : Str := [75, 83, 65, 86]

/-- `SaveGame` dataclass. -/
structure SaveGame where
  header : SaveGameHeader
  templates : List TypeTemplate
  world : List (Str × PyVal)
  settings : List (Str × PyVal)
  sim_data : List Nat
  version_major : Int
  version_minor : Int
  game_objects : List GameObjectGroup
  game_data : List Nat

/-- `_parse_save_body`: the `world` marker, the `Klei.SaveFileRoot` name and
object, the `Game+Settings` name and object, the length-prefixed sim blob
(length used unchecked), the `KSAV` magic, the body version pair, the entity
groups, and the remaining bytes verbatim. -/
def parseSaveBody (fuel : Nat) (templates : List TypeTemplate) (s : BP) :
    Except PyErr ((List (Str × PyVal)) × (List (Str × PyVal)) × List Nat × Int × Int ×
      List GameObjectGroup × List Nat × BP) := do
  let (worldMarker, s1) ← readKleiString s
  if worldMarker ≠ Option.some strWorld then .error .corruption
  else do
    let (worldTypeRaw, s2) ← readKleiString s1
    match worldTypeRaw with
    | Option.none => .error .corruption
    | Option.some worldTypeName => do
        let wtn ← validateDotnetIdentifierName (Option.some worldTypeName)
        if wtn ≠ strSaveFileRoot then .error .corruption
        else do
          let (world, s3) ← parse_by_template fuel templates wtn s2
          let (settingsTypeRaw, s4) ← readKleiString s3
          match settingsTypeRaw with
          | Option.none => .error .corruption
          | Option.some settingsTypeName => do
              let stn ← validateDotnetIdentifierName (Option.some settingsTypeName)
              if stn ≠ strGameSettings then .error .corruption
              else do
                let (settings, s5) ← parse_by_template fuel templates stn s4
                let (simDataLength, s6) ← readInt32 s5
                let (simData, s7) ← readBytesInt simDataLength s6
                let (ksav, s8) ← readChars strKSAV.length s7
                if ksav ≠ strKSAV then .error .corruption
                else do
                  let (versionMajor, s9) ← readInt32 s8
                  let (versionMinor, s10) ← readInt32 s9
                  let (gameObjects, s11) ← parse_game_objects fuel templates s10
                  let gameData := s11.data.drop s11.offset
                  .ok (world, settings, simData, versionMajor, versionMinor, gameObjects,
                       gameData, s11)

/-- `parse_save_game`: header, version gate (major must be 7 and, unless
minor mismatches are allowed, minor must be 35), templates, then the body —
decompressed through `inflate` when the header's compression flag is set. -/
def parse_save_game (inflate : List Nat → Except Unit (List Nat))
    (verifyVersion allowMinorMismatch : Bool) (fuel : Nat) (data : List Nat) :
    Except PyErr SaveGame := do
  let (header, s1) ← parse_header ⟨data, 0⟩
  if verifyVersion ∧ header.game_info.save_major_version ≠ 7 then .error .versionMismatch
  else if verifyVersion ∧ ¬ allowMinorMismatch ∧ header.game_info.save_minor_version ≠ 35 then
    .error .versionMismatch
  else do
    let (templates, s2) ← parse_templates fuel s1
    let bodyStream ←
      if header.is_compressed then
        match inflate (s2.data.drop s2.offset) with
        | .error _ => .error .corruption
        | .ok decompressed => .ok (BP.mk decompressed 0)
      else .ok s2
    let (world, settings, simData, versionMajor, versionMinor, gameObjects, gameData, _) ←
      parseSaveBody fuel templates bodyStream
    .ok ⟨header, templates, world, settings, simData, versionMajor, versionMinor,
         gameObjects, gameData⟩

/-- `_unparse_save_body`: the inverse order of `_parse_save_body`. -/
def unparseSaveBody (fuel : Nat) (sg : SaveGame) : Except PyErr (List Nat) := do
  let w ← writeKleiString (Option.some strWorld)
  let wt ← writeKleiString (Option.some strSaveFileRoot)
  let worldBytes ← unparse_by_template fuel sg.templates strSaveFileRoot sg.world
  let st ← writeKleiString (Option.some strGameSettings)
  let settingsBytes ← unparse_by_template fuel sg.templates strGameSettings sg.settings
  let simLen ← writeInt32 (sg.sim_data.length : Int)
  let ksav ← writeChars strKSAV
  let vmaj ← writeInt32 sg.version_major
  let vmin ← writeInt32 sg.version_minor
  let groupBytes ← unparse_game_objects fuel sg.templates sg.game_objects
  .ok (w ++ wt ++ worldBytes ++ st ++ settingsBytes ++ simLen ++ sg.sim_data ++ ksav ++
       vmaj ++ vmin ++ groupBytes ++ sg.game_data)

/-- `unparse_save_game`: header, templates, then the body — run through
`deflate` when the header's compression flag is set. -/
def unparse_save_game (deflate : List Nat → List Nat) (fuel : Nat) (sg : SaveGame) :
    Except PyErr (List Nat) := do
  let headerBytes ← unparse_header sg.header
  let templateBytes ← unparse_templates fuel sg.templates
  let bodyBytes ← unparseSaveBody fuel sg
  let tail := if sg.header.is_compressed then deflate bodyBytes else bodyBytes
  .ok (headerBytes ++ templateBytes ++ tail)

/-! ## High-level API (`api.py`) -/

/-- Loop body of `get_game_objects_by_prefab`: the first group whose prefab
name matches wins; no match yields the empty list. -/
def groupLookup : List GameObjectGroup → Str → List GameObject
  | [], _ => []
  | g :: gs, prefab => if g.prefab_name = prefab then g.objects else groupLookup gs prefab

/-- `get_game_objects_by_prefab`: a pure read of the save's group list. -/
def get_game_objects_by_prefab (sg : SaveGame) (prefab : Str) : List GameObject :=
  groupLookup sg.game_objects prefab

end OniSave

namespace OniSave

/-! Definitions compiled by well-founded recursion are unsealed so that
closed theorems about concrete inputs can be settled by `rfl`. -/

unseal parse_by_type parseArrayLike parseValuesN parseTemplateElemsN parse_by_template
unseal parseMembers
unseal unparse_by_type unparseArrayLike unparseValuesN unparseTemplateElemsN
unseal unparse_by_template unparseMembers
unseal parseTypeInfo parseTypeInfoN unparseTypeInfo unparseTypeInfoN
unseal parse_behavior parseStoredItemsN parse_game_object parseBehaviorsN
unseal unparse_behavior unparseStoredItemsN unparse_game_object unparseBehaviorsN
unseal jsonParseValue jsonParseMembers jsonParseItems

end OniSave

namespace OniSave

/-! ## Shared concrete descriptors for the claim theorems -/

/-- Descriptor of an `Int32` value. -/
def tiInt32 : TypeInfo := .mk 6 Option.none []

/-- Descriptor of a `String` value. -/
def tiString : TypeInfo := .mk 12 Option.none []

/-- Descriptor of a generic `Pair<Int32, Int32>` value (tag byte
`0x80 | 18`). -/
def tiPairII : TypeInfo := .mk 146 Option.none [tiInt32, tiInt32]

/-- Descriptor of a `UserDefined` value of class `A`. -/
def tiUserA : TypeInfo := .mk 0 (Option.some [65]) []

/-- A successful `read_int32` leaves the same buffer with the offset moved
forward by exactly four bytes. -/
theorem readInt32_state {s s' : BP} {n : Int} (hr : readInt32 s = .ok (n, s')) :
    s' = ⟨s.data, s.offset + 4⟩ := by
  unfold readInt32 bpRead at hr
  split at hr
  · simp [bind, Except.bind] at hr
  · simp [bind, Except.bind] at hr
    exact hr.2.symm

/-! ## Claim C4 — null sentinel bytes of Pair and UserDefined -/

/-- Claim C4: the claim says a null Pair and a null UserDefined each write
exactly the four bytes `i32(-1)`.  Evaluating the code: the null UserDefined
write and both reads behave as claimed, but the null Pair write emits
`i32(4)` followed by `i32(-1)` — eight bytes, which the Pair reader in the
same file does not read back as null. -/
theorem pair_null_write_is_eight_bytes :
    unparse_by_type 2 [] PyVal.none tiPairII = .ok [4, 0, 0, 0, 255, 255, 255, 255]
    ∧ unparse_by_type 2 [] PyVal.none tiUserA = .ok [255, 255, 255, 255]
    ∧ parse_by_type 2 [] tiPairII ⟨[255, 255, 255, 255], 0⟩ =
        .ok (.none, ⟨[255, 255, 255, 255], 4⟩)
    ∧ parse_by_type 2 [] tiUserA ⟨[255, 255, 255, 255], 0⟩ =
        .ok (.none, ⟨[255, 255, 255, 255], 4⟩)
    ∧ ([4, 0, 0, 0, 255, 255, 255, 255] : List Nat) ≠ [255, 255, 255, 255] :=
  ⟨by with_unfolding_all rfl, by with_unfolding_all rfl, by with_unfolding_all rfl,
   by with_unfolding_all rfl, by decide⟩

/-! ## Claim C6 — SByte read primitive -/

/-- Claim C6: the claim says the byte stream provides a signed 8-bit read
and the SByte branch passes through to it.  `BinaryParser` defines no
`read_sbyte` method, so `parse_by_type` on an SByte descriptor raises
`AttributeError` on every stream, never returning a value. -/
theorem sbyte_read_raises_attribute_error (fuel : Nat) (templates : List TypeTemplate)
    (s : BP) :
    parse_by_type (fuel + 1) templates (.mk 1 Option.none []) s = .error .attributeError := by
  simp [parse_by_type, getTypeCode, TypeInfo.info]

/-! ## Claim C9 — negative length prefixes -/

/-- Claim C9: a Pair or UserDefined whose `i32` length prefix is any
negative number parses as null, consuming exactly the four prefix bytes and
raising nothing — while `read_klei_string` raises `CorruptionError` for a
prefix below `-1`. -/
theorem negative_prefix_reads_null (templates : List TypeTemplate) (kt vt : TypeInfo)
    (tn : Str) (pinfo uinfo : Nat) (fuel : Nat) (s s' : BP) (n : Int)
    (hp : pinfo % 64 = 18) (hu : uinfo % 64 = 0)
    (hr : readInt32 s = .ok (n, s')) (hn : n < 0) :
    parse_by_type (fuel + 1) templates (.mk pinfo Option.none [kt, vt]) s = .ok (.none, s')
    ∧ parse_by_type (fuel + 1) templates (.mk uinfo (Option.some tn) []) s = .ok (.none, s')
    ∧ s' = ⟨s.data, s.offset + 4⟩
    ∧ (n < -1 → readKleiString s = .error .corruption) := by
  refine ⟨?_, ?_, readInt32_state hr, ?_⟩
  · simp [parse_by_type, getTypeCode, TypeInfo.info, TypeInfo.subs, hp, hr, hn, bind, Except.bind]
  · simp [parse_by_type, getTypeCode, TypeInfo.info, TypeInfo.subs, TypeInfo.tname, hu, hr, hn,
      bind, Except.bind]
  · intro hlt
    unfold readKleiString
    rw [hr]
    have h1 : n ≠ -1 := by omega
    have h0 : n ≠ 0 := by omega
    simp [bind, Except.bind, h1, h0, hn]

/-- Witness for C9 at the concrete prefix `-5`. -/
theorem negative_prefix_reads_null_witness :
    parse_by_type 1 [] (.mk 146 Option.none [tiInt32, tiInt32]) ⟨[251, 255, 255, 255, 9], 0⟩ =
      .ok (.none, ⟨[251, 255, 255, 255, 9], 4⟩)
    ∧ readKleiString ⟨[251, 255, 255, 255, 9], 0⟩ = .error .corruption := by
  have h := negative_prefix_reads_null [] tiInt32 tiInt32 [] 146 0 0
    ⟨[251, 255, 255, 255, 9], 0⟩ ⟨[251, 255, 255, 255, 9], 4⟩ (-5)
    (by decide) (by decide) (by rfl) (by decide)
  exact ⟨h.1, h.2.2.2 (by decide)⟩

end OniSave

namespace OniSave

/-! ## Claim C8 — lower-cased SDBM-32 hash -/

/-- Every truncation step lands in the signed 32-bit range. -/
theorem wrap32_mem_range (x : Int) : -2 ^ 31 ≤ wrap32 x ∧ wrap32 x < 2 ^ 31 := by
  unfold wrap32
  have h0 : 0 ≤ x.emod (2 ^ 32) := Int.emod_nonneg x (by norm_num)
  have h1 : x.emod (2 ^ 32) < 2 ^ 32 := Int.emod_lt_of_pos x (by norm_num)
  dsimp only
  split <;> omega

/-- The SDBM fold preserves the signed 32-bit range. -/
theorem foldl_sdbmStep_range (l : List Nat) (acc : Int)
    (h : -2 ^ 31 ≤ acc ∧ acc < 2 ^ 31) :
    -2 ^ 31 ≤ l.foldl sdbmStep acc ∧ l.foldl sdbmStep acc < 2 ^ 31 := by
  induction l generalizing acc with
  | nil => exact h
  | cons c cs ih => exact ih (sdbmStep acc c) (wrap32_mem_range _)

/-- Claim C8: the SDBM-32 hash of the empty string is 0, hashing is
invariant under ASCII upper-casing of the input, the two repository
fixtures hold, and every result fits the signed 32-bit range.  (The
char-by-char fold with per-step signed truncation is the definition of
`get_sdbm32_lower_hash` itself.) -/
theorem sdbm32_lower_hash_spec :
    get_sdbm32_lower_hash [] = 0
    ∧ (∀ s : List Nat, (∀ c ∈ s, c < 128) →
        get_sdbm32_lower_hash (s.map pyUpperChar) = get_sdbm32_lower_hash s)
    ∧ get_sdbm32_lower_hash [116, 101, 115, 116] = 1195757874
    ∧ get_sdbm32_lower_hash [109, 105, 110, 105, 111, 110] = 2129234166
    ∧ ∀ s : List Nat,
        -2 ^ 31 ≤ get_sdbm32_lower_hash s ∧ get_sdbm32_lower_hash s < 2 ^ 31 := by
  refine ⟨rfl, ?_, by decide, by decide, ?_⟩
  · intro s hascii
    have hchar : ∀ c, c < 128 → pyLowerChar (pyUpperChar c) = pyLowerChar c := by decide
    unfold get_sdbm32_lower_hash
    rcases s with _ | ⟨c, cs⟩
    · rfl
    · have hmap : ((c :: cs).map pyUpperChar).map pyLowerChar = (c :: cs).map pyLowerChar := by
        rw [List.map_map]
        exact List.map_congr_left (fun a ha => hchar a (hascii a ha))
      rw [if_neg (by simp), if_neg (by simp), hmap]
  · intro s
    unfold get_sdbm32_lower_hash
    split
    · norm_num
    · exact foldl_sdbmStep_range _ 0 (by norm_num)

/-- Witness for C8's casing invariance at the fixture input `test`. -/
theorem sdbm32_lower_hash_spec_witness :
    get_sdbm32_lower_hash ([116, 101, 115, 116].map pyUpperChar) =
      get_sdbm32_lower_hash [116, 101, 115, 116] :=
  sdbm32_lower_hash_spec.2.1 [116, 101, 115, 116] (by decide)

/-! ## Claim C5 — template field and property counts -/

/-- Counterexample to claim C5: the claim says a negative `field_count` or
`property_count` raises `CorruptionError`.  On the concrete template record
with name `A` and both counts `-1`, `parse_template` succeeds with empty
member lists instead. -/
theorem template_negative_counts_accepted :
    parse_template 1 ⟨[1, 0, 0, 0, 65, 255, 255, 255, 255, 255, 255, 255, 255], 0⟩ =
      .ok (⟨[65], [], []⟩, ⟨[1, 0, 0, 0, 65, 255, 255, 255, 255, 255, 255, 255, 255], 13⟩) := by
  with_unfolding_all rfl

/-- Amended claim C5: the counts are not validated; they feed Python
`range` loops, so a template whose two counts are both negative parses
without error into empty field and property lists, the stream left right
after the two count words. -/
theorem template_negative_counts_parse_empty (fuel : Nat) (s s1 s2 s3 : BP)
    (nameRaw : Option Str) (name : Str) (fc pc : Int)
    (hname : readKleiString s = .ok (nameRaw, s1))
    (hval : validateDotnetIdentifierName nameRaw = .ok name)
    (hfc : readInt32 s1 = .ok (fc, s2)) (hfcneg : fc < 0)
    (hpc : readInt32 s2 = .ok (pc, s3)) (hpcneg : pc < 0) :
    parse_template fuel s = .ok (⟨name, [], []⟩, s3) := by
  have hfc0 : fc.toNat = 0 := by omega
  have hpc0 : pc.toNat = 0 := by omega
  unfold parse_template
  simp [bind, Except.bind, hname, hval, hfc, hpc, hfc0, hpc0, parseTemplateMembersN, pure,
    Except.pure]

/-- Witness for the amended C5 at name `B` and counts `-2`, `-7`. -/
theorem template_negative_counts_parse_empty_witness :
    parse_template 3 ⟨[1, 0, 0, 0, 66, 254, 255, 255, 255, 249, 255, 255, 255], 0⟩ =
      .ok (⟨[66], [], []⟩, ⟨[1, 0, 0, 0, 66, 254, 255, 255, 255, 249, 255, 255, 255], 13⟩) :=
  template_negative_counts_parse_empty 3 _
    ⟨[1, 0, 0, 0, 66, 254, 255, 255, 255, 249, 255, 255, 255], 5⟩
    ⟨[1, 0, 0, 0, 66, 254, 255, 255, 255, 249, 255, 255, 255], 9⟩
    ⟨[1, 0, 0, 0, 66, 254, 255, 255, 255, 249, 255, 255, 255], 13⟩
    (Option.some [66]) [66] (-2) (-7)
    (by with_unfolding_all rfl) (by with_unfolding_all rfl)
    (by with_unfolding_all rfl) (by decide)
    (by with_unfolding_all rfl) (by decide)

end OniSave

namespace OniSave

/-! ## Claim C3 — error recovery is wider than template-missing -/

/-- Template `A`, one field `x` of type `UserDefined B`. -/
def tmplA : TypeTemplate := ⟨[65], [⟨[120], .mk 0 (Option.some [66]) []⟩], []⟩

/-- Template `B`, one field `y` of type `Int32`. -/
def tmplB : TypeTemplate := ⟨[66], [⟨[121], tiInt32⟩], []⟩

/-- Component record for C3: name `A`, declared payload length 8, payload a
nested `UserDefined B` whose declared length 2 disagrees with the 4 bytes
its template consumes. -/
def c3Bytes : List Nat := [1, 0, 0, 0, 65, 8, 0, 0, 0, 2, 0, 0, 0, 7, 0, 0, 0]

/-- Claim C3: the claim says that when a component's template is present,
any `CorruptionError` from its payload propagates, recovery being reserved
for the template-missing case.  Evaluating the code: template `A` is in the
table and its payload parse raises `CorruptionError` (nested declared-length
mismatch), yet `parse_behavior` swallows it — the `except CorruptionError`
catches every corruption from `parse_by_template`, not only template-not-
found — and records the component as if its template were missing:
`template_data = None` with the raw payload preserved. -/
theorem present_template_corruption_swallowed :
    findTemplate [tmplA, tmplB] [65] = Option.some tmplA
    ∧ parse_by_template 9 [tmplA, tmplB] [65] ⟨c3Bytes, 9⟩ = .error .corruption
    ∧ parse_behavior 10 [tmplA, tmplB] ⟨c3Bytes, 0⟩ =
        .ok (.mk [65] Option.none Option.none [2, 0, 0, 0, 7, 0, 0, 0], ⟨c3Bytes, 17⟩) :=
  ⟨by with_unfolding_all rfl, by with_unfolding_all rfl, by with_unfolding_all rfl⟩

/-! ## Claim C10 — group lookup by prefab name -/

/-- The lookup loop returns the first matching group's objects, or the
empty list. -/
theorem groupLookup_eq_find (gs : List GameObjectGroup) (prefab : Str) :
    groupLookup gs prefab =
      match gs.find? (fun g => g.prefab_name = prefab) with
      | Option.some g => g.objects
      | Option.none => [] := by
  induction gs with
  | nil => rfl
  | cons g gs ih =>
      unfold groupLookup
      rw [List.find?_cons]
      by_cases h : g.prefab_name = prefab
      · simp [h]
      · simp [h, ih]

/-- Claim C10: `get_game_objects_by_prefab` returns the entity list of the
first group whose prefab name matches and the empty list when none does,
raising nothing; it is a pure read of the `SaveGame` value (the embedding
of the loop performs no mutation). -/
theorem get_game_objects_by_prefab_spec (sg : SaveGame) (prefab : Str) :
    get_game_objects_by_prefab sg prefab =
      match sg.game_objects.find? (fun g => g.prefab_name = prefab) with
      | Option.some g => g.objects
      | Option.none => [] :=
  groupLookup_eq_find sg.game_objects prefab

/-! ## Claim C2 — structural round trip of in-memory SaveGame values -/

/-- Game info fixture: cycles 1, duplicants 0, names `b`, versions 7.35,
cluster `c`, guid `g`, empty dlc, both flags clear. -/
def gi0 : SaveGameInfo := ⟨1, 0, [98], false, [98], 7, 35, [99], false, [103], []⟩

/-- Uncompressed header (version 1) around `gi0`. -/
def hdr0 : SaveGameHeader := ⟨0, 1, false, gi0⟩

/-- `Klei.SaveFileRoot` template with a single Pair-typed field `p`. -/
def tmplRootPair : TypeTemplate := ⟨strSaveFileRoot, [⟨[112], tiPairII⟩], []⟩

/-- Empty `Game+Settings` template. -/
def tmplSettings : TypeTemplate := ⟨strGameSettings, [], []⟩

/-- In-memory save whose world contains a null Pair value. -/
def saveWithNullPair : SaveGame :=
  ⟨hdr0, [tmplRootPair, tmplSettings], [([112], PyVal.none)], [], [], 7, 35, [], []⟩

/-- Inflate stub; every claim here runs with the compression flag clear,
where it is never invoked. -/
def noInflate : List Nat → Except Unit (List Nat) := fun _ => .error ()

set_option maxRecDepth 1000000

/-- Claim C2: the claim says `parse_save_game (unparse_save_game x)` is
structurally equal to `x` for every in-memory save, including ones holding
null Pair values.  Evaluating the code on `saveWithNullPair`: the write
succeeds, but re-parsing its output raises `CorruptionError` — the null
Pair was written as `i32(4), i32(-1)`, which the Pair reader does not
recognize as null (it consumes the `4` as the data length and misparses
from there), so the round trip yields no tree at all. -/
theorem null_pair_save_round_trip_fails :
    (unparse_save_game id 10 saveWithNullPair).isOk = true
    ∧ (unparse_save_game id 10 saveWithNullPair >>=
        parse_save_game noInflate true false 10) = .error .corruption :=
  ⟨by with_unfolding_all rfl, by with_unfolding_all rfl⟩

end OniSave

namespace OniSave

/-! ## Byte-level stepping lemmas

Facts about the primitive readers and writers on streams of the shape
`pre ++ mid ++ post` with the cursor at `pre.length`, used to walk the
parsers symbolically. -/

/-- Bytes emitted by `write_int32` for an in-range value. -/
def encInt32 (n : Int) : List Nat := natLE 4 (n.emod (2 ^ 32)).toNat

/-- Bytes emitted by `write_klei_string` for a non-null string. -/
def kleiBytes (s : Str) : List Nat := encInt32 (s.length : Int) ++ s

/-- `natLE` always emits exactly `w` bytes. -/
theorem natLE_length (w m : Nat) : (natLE w m).length = w := by
  induction w generalizing m with
  | zero => rfl
  | succ w ih => simp [natLE, ih]

/-- `leNat` inverts `natLE` below the width bound. -/
theorem leNat_natLE (w m : Nat) (h : m < 256 ^ w) : leNat (natLE w m) = m := by
  induction w generalizing m with
  | zero =>
      have hm : m = 0 := by
        have : (256 : Nat) ^ 0 = 1 := by norm_num
        omega
      subst hm
      rfl
  | succ w ih =>
      have hd : m / 256 < 256 ^ w := by
        have : 256 ^ (w + 1) = 256 ^ w * 256 := by ring
        omega
      simp [natLE, leNat, ih (m / 256) hd]
      omega

/-- Length of the `write_int32` image. -/
theorem encInt32_length (n : Int) : (encInt32 n).length = 4 := natLE_length 4 _

/-- Reading back a written `i32`. -/
theorem toSigned32_emod (n : Int) (h1 : -2 ^ 31 ≤ n) (h2 : n < 2 ^ 31) :
    toSigned 32 ((n.emod (2 ^ 32)).toNat : Nat) = n := by
  have h0 : 0 ≤ n.emod (2 ^ 32) := Int.emod_nonneg n (by norm_num)
  have h3 : n.emod (2 ^ 32) < 2 ^ 32 := Int.emod_lt_of_pos n (by norm_num)
  have h4 : n.emod (2 ^ 32) = n - 2 ^ 32 * ((n / (2 ^ 32) : Int)) := Int.emod_def n (2 ^ 32)
  unfold toSigned
  split <;> omega

/-- `bpRead` on a stream whose cursor sits exactly between `pre` and
`mid`. -/
theorem bpRead_at {n k : Nat} {pre mid post : List Nat} (hk : k = pre.length)
    (hm : mid.length = n) :
    bpRead n ⟨pre ++ mid ++ post, k⟩ = .ok (mid, ⟨pre ++ mid ++ post, k + n⟩) := by
  subst hk
  subst hm
  unfold bpRead
  rw [if_neg (by simp only [List.length_append, not_lt]; omega)]
  rw [List.append_assoc, List.drop_left, List.take_left]

/-- `read_int32` over the bytes `write_int32` emits. -/
theorem readInt32_at {k : Nat} {pre post : List Nat} {n : Int} (hk : k = pre.length)
    (h1 : -2 ^ 31 ≤ n) (h2 : n < 2 ^ 31) :
    readInt32 ⟨pre ++ encInt32 n ++ post, k⟩ =
      .ok (n, ⟨pre ++ encInt32 n ++ post, k + 4⟩) := by
  unfold readInt32
  rw [bpRead_at hk (encInt32_length n)]
  have hlt : (n.emod (2 ^ 32)).toNat < 256 ^ 4 := by
    have h0 : 0 ≤ n.emod (2 ^ 32) := Int.emod_nonneg n (by norm_num)
    have h3 : n.emod (2 ^ 32) < 2 ^ 32 := Int.emod_lt_of_pos n (by norm_num)
    omega
  have hdec : leNat (encInt32 n) = (n.emod (2 ^ 32)).toNat := by
    unfold encInt32
    exact leNat_natLE 4 _ hlt
  simp only [bind, Except.bind]
  rw [hdec, toSigned32_emod n h1 h2]

/-- `read_uint32` over the bytes `write_uint32` emits (`natLE` of a value
below `2^32`). -/
theorem readUint32_at {k : Nat} {pre post : List Nat} {m : Nat} (hk : k = pre.length)
    (h : m < 2 ^ 32) :
    readUint32 ⟨pre ++ natLE 4 m ++ post, k⟩ =
      .ok ((m : Int), ⟨pre ++ natLE 4 m ++ post, k + 4⟩) := by
  unfold readUint32
  rw [bpRead_at hk (natLE_length 4 m)]
  simp [bind, Except.bind, leNat_natLE 4 m (by omega)]

/-- `read_klei_string` over the bytes `write_klei_string` emits for a
non-null string. -/
theorem readKleiString_at {k : Nat} {pre post : List Nat} {s : Str} (hk : k = pre.length)
    (h : (s.length : Int) < 2 ^ 31) :
    readKleiString ⟨pre ++ kleiBytes s ++ post, k⟩ =
      .ok (Option.some s, ⟨pre ++ kleiBytes s ++ post, k + 4 + s.length⟩) := by
  unfold readKleiString
  unfold kleiBytes
  have hre : pre ++ (encInt32 (s.length : Int) ++ s) ++ post =
      pre ++ encInt32 (s.length : Int) ++ (s ++ post) := by
    simp [List.append_assoc]
  rw [hre, readInt32_at hk (by omega) h]
  rcases s with _ | ⟨c, cs⟩
  · simp [bind, Except.bind]
  · have hne0 : ¬ ((c :: cs).length : Int) = 0 := by
      simp only [List.length_cons]
      push_cast
      omega
    have hne1 : ¬ ((c :: cs).length : Int) = -1 := by
      simp only [List.length_cons]
      push_cast
      omega
    have hnneg : ¬ ((c :: cs).length : Int) < 0 := by
      simp only [List.length_cons]
      push_cast
      omega
    simp only [bind, Except.bind, hne0, hne1, hnneg, if_false, reduceIte]
    have harr : pre ++ encInt32 ((c :: cs).length : Int) ++ ((c :: cs) ++ post) =
        (pre ++ encInt32 ((c :: cs).length : Int)) ++ (c :: cs) ++ post := by
      simp [List.append_assoc]
    have hk4 : k + 4 = (pre ++ encInt32 ((c :: cs).length : Int)).length := by
      simp [hk, encInt32_length]
    rw [harr, show (((c :: cs).length : Int)).toNat = (c :: cs).length from rfl,
       bpRead_at hk4 rfl]

/-- Inversion of a successful `bind` in the `Except` monad. -/
theorem except_bind_ok {α β : Type} {e : Except PyErr α} {f : α → Except PyErr β} {b : β} :
    e.bind f = .ok b ↔ ∃ a, e = .ok a ∧ f a = .ok b := by
  cases e <;> simp [Except.bind]

/-- `write_int32` succeeds exactly on the `i32` range, emitting
`encInt32`. -/
theorem writeInt32_ok_iff {n : Int} {bs : List Nat} :
    writeInt32 n = .ok bs ↔ (-2 ^ 31 ≤ n ∧ n < 2 ^ 31 ∧ bs = encInt32 n) := by
  unfold writeInt32 encInt32
  split
  · constructor
    · intro h
      injection h with h
      exact ⟨by omega, by omega, h.symm⟩
    · intro ⟨_, _, h⟩
      rw [h]
  · constructor
    · intro h
      injection h
    · intro ⟨h1, h2, _⟩
      omega

end OniSave

namespace OniSave

/-! ## Claim C7 — dictionary layout and ordering -/

/-- Descriptor of a generic `Dictionary<Int32, Pair<Int32, Int32>>`. -/
def tiDictIntPair : TypeInfo := .mk 147 Option.none [tiInt32, tiPairII]

/-- Counterexample to claim C7 as stated (its "for every Dictionary
descriptor ... a write followed by a parse preserves the pair list"): for
the dictionary descriptor whose value type is `Pair<Int32, Int32>` and the
one-entry list `[(0, None)]`, the write succeeds but re-parsing its own
output raises `CorruptionError` — the null Pair value was written as
`i32(4), i32(-1)`, which the Pair reader misreads. -/
theorem dictionary_null_pair_value_not_preserved :
    unparse_by_type 9 [] (.list [.tup (.int 0) PyVal.none]) tiDictIntPair =
      .ok [12, 0, 0, 0, 1, 0, 0, 0, 4, 0, 0, 0, 255, 255, 255, 255, 0, 0, 0, 0]
    ∧ parse_by_type 9 [] tiDictIntPair
        ⟨[12, 0, 0, 0, 1, 0, 0, 0, 4, 0, 0, 0, 255, 255, 255, 255, 0, 0, 0, 0], 0⟩ =
      .error .corruption :=
  ⟨by with_unfolding_all rfl, by with_unfolding_all rfl⟩

/-- A value round-trips through the codec at a given descriptor when every
successful write of it parses back to it, consuming exactly the written
bytes, in any surrounding stream. -/
def UnparseParses (fuel : Nat) (templates : List TypeTemplate) (ti : TypeInfo) (v : PyVal) :
    Prop :=
  ∀ bs, unparse_by_type fuel templates v ti = .ok bs →
    ∀ pre post, parse_by_type fuel templates ti ⟨pre ++ bs ++ post, pre.length⟩ =
      .ok (v, ⟨pre ++ bs ++ post, pre.length + bs.length⟩)

/-- The element loops correspond: parsing back the concatenation written by
`unparseValuesN` returns the original elements in order. -/
theorem parseValuesN_of_unparseValuesN (fuel : Nat) (T : List TypeTemplate) (ti : TypeInfo)
    (vs : List PyVal) (VB : List Nat)
    (hun : unparseValuesN fuel T vs ti = .ok VB)
    (hrt : ∀ v ∈ vs, UnparseParses fuel T ti v) :
    ∀ pre post, parseValuesN fuel T ti vs.length ⟨pre ++ VB ++ post, pre.length⟩ =
      .ok (vs, ⟨pre ++ VB ++ post, pre.length + VB.length⟩) := by
  induction vs generalizing VB with
  | nil =>
      intro pre post
      rw [unparseValuesN] at hun
      injection hun with hun
      subst hun
      rw [List.length_nil, parseValuesN]
      simp
  | cons v vs ih =>
      intro pre post
      rw [unparseValuesN] at hun
      simp only [bind] at hun
      obtain ⟨b, hb, hun⟩ := except_bind_ok.mp hun
      obtain ⟨rest, hrest, hVB⟩ := except_bind_ok.mp hun
      injection hVB with hVB
      subst hVB
      have hassoc : pre ++ (b ++ rest) ++ post = pre ++ b ++ (rest ++ post) := by
        simp [List.append_assoc]
      rw [List.length_cons, parseValuesN.eq_def, hassoc]
      dsimp only
      simp only [bind]
      rw [except_bind_ok]
      refine ⟨(v, ⟨pre ++ b ++ (rest ++ post), pre.length + b.length⟩),
        hrt v (List.mem_cons_self v vs) b hb pre (rest ++ post), ?_⟩
      have ih2 := ih rest hrest (fun w hw => hrt w (List.mem_cons_of_mem v hw)) (pre ++ b) post
      have hassoc2 : (pre ++ b) ++ rest ++ post = pre ++ b ++ (rest ++ post) := by
        simp [List.append_assoc]
      have hlen : (pre ++ b).length = pre.length + b.length := List.length_append pre b
      rw [hassoc2, hlen] at ih2
      rw [except_bind_ok]
      refine ⟨(vs, ⟨pre ++ b ++ (rest ++ post), pre.length + b.length + rest.length⟩), ih2, ?_⟩
      simp [List.append_assoc, List.length_append, Nat.add_assoc]
end OniSave

namespace OniSave

/-- Tuple unpacking of a list of two-tuples recovers the pairs. -/
theorem tupList_map_tup (pairs : List (PyVal × PyVal)) :
    tupList (pairs.map (fun p => .tup p.1 p.2)) = .ok pairs := by
  induction pairs with
  | nil => rfl
  | cons p ps ih => simp [tupList, ih, bind, Except.bind]

/-- Form of `bpRead_at` keyed on an equation for the whole buffer, so that
rewriting needs no associativity matching. -/
theorem bpRead_at' {d : List Nat} {n k : Nat} {p u t : List Nat}
    (hd : d = p ++ (u ++ t)) (hk : k = p.length) (hm : u.length = n) :
    bpRead n ⟨d, k⟩ = .ok (u, ⟨d, k + n⟩) := by
  subst hd
  rw [show p ++ (u ++ t) = p ++ u ++ t from (List.append_assoc p u t).symm]
  exact bpRead_at hk hm

/-- Buffer-equation form of `readInt32_at`. -/
theorem readInt32_at' {d : List Nat} {k : Nat} {p t : List Nat} {n : Int}
    (hd : d = p ++ (encInt32 n ++ t)) (hk : k = p.length)
    (h1 : -2 ^ 31 ≤ n) (h2 : n < 2 ^ 31) :
    readInt32 ⟨d, k⟩ = .ok (n, ⟨d, k + 4⟩) := by
  subst hd
  rw [show p ++ (encInt32 n ++ t) = p ++ encInt32 n ++ t from
    (List.append_assoc p (encInt32 n) t).symm]
  exact readInt32_at hk h1 h2

/-- Buffer-equation form of `readUint32_at`. -/
theorem readUint32_at' {d : List Nat} {k : Nat} {p t : List Nat} {m : Nat}
    (hd : d = p ++ (natLE 4 m ++ t)) (hk : k = p.length) (h : m < 2 ^ 32) :
    readUint32 ⟨d, k⟩ = .ok ((m : Int), ⟨d, k + 4⟩) := by
  subst hd
  rw [show p ++ (natLE 4 m ++ t) = p ++ natLE 4 m ++ t from
    (List.append_assoc p (natLE 4 m) t).symm]
  exact readUint32_at hk h

/-- Buffer-equation form of `readKleiString_at`. -/
theorem readKleiString_at' {d : List Nat} {k : Nat} {p t : List Nat} {s : Str}
    (hd : d = p ++ (kleiBytes s ++ t)) (hk : k = p.length)
    (h : (s.length : Int) < 2 ^ 31) :
    readKleiString ⟨d, k⟩ = .ok (Option.some s, ⟨d, k + 4 + s.length⟩) := by
  subst hd
  rw [show p ++ (kleiBytes s ++ t) = p ++ kleiBytes s ++ t from
    (List.append_assoc p (kleiBytes s) t).symm]
  exact readKleiString_at hk h

/-- Buffer-equation form of `parseValuesN_of_unparseValuesN`. -/
theorem parseValuesN_at' (fuel : Nat) (T : List TypeTemplate) (ti : TypeInfo)
    {d : List Nat} {k : Nat} {p t : List Nat} {vs : List PyVal} {VB : List Nat} {m : Nat}
    (hun : unparseValuesN fuel T vs ti = .ok VB)
    (hrt : ∀ v ∈ vs, UnparseParses fuel T ti v)
    (hd : d = p ++ (VB ++ t)) (hk : k = p.length) (hm : m = vs.length) :
    parseValuesN fuel T ti m ⟨d, k⟩ = .ok (vs, ⟨d, k + VB.length⟩) := by
  subst hd
  subst hk
  subst hm
  rw [show p ++ (VB ++ t) = p ++ VB ++ t from (List.append_assoc p VB t).symm]
  exact parseValuesN_of_unparseValuesN fuel T ti vs VB hun hrt p t

/-- Amended claim C7: for every Dictionary descriptor and non-null ordered
pair list, a successful write emits `i32 data_length`, `i32 element_count`,
then all the values back-to-back, then all the keys back-to-back; and
provided each written key and value parses back to itself consuming its own
bytes (true of the primitive subtypes; refuted for Pair subtypes holding
null by the counterexample), the reader — which reads `element_count`
values, then that many keys, pairing positionally — returns the pair list
in its original order, consuming exactly the written bytes. -/
theorem dictionary_write_parse_order (fuel : Nat) (T : List TypeTemplate) (kt vt : TypeInfo)
    (dinfo : Nat) (pairs : List (PyVal × PyVal)) (B : List Nat)
    (hcode : dinfo % 64 = 19)
    (hun : unparse_by_type (fuel + 1) T (.list (pairs.map (fun p => .tup p.1 p.2)))
        (.mk dinfo Option.none [kt, vt]) = .ok B)
    (hkrt : ∀ p ∈ pairs, UnparseParses fuel T kt p.1)
    (hvrt : ∀ p ∈ pairs, UnparseParses fuel T vt p.2) :
    ∃ VB KB,
      unparseValuesN fuel T (pairs.map (fun p => p.2)) vt = .ok VB
      ∧ unparseValuesN fuel T (pairs.map (fun p => p.1)) kt = .ok KB
      ∧ B = encInt32 ((VB.length : Int) + (KB.length : Int)) ++ encInt32 (pairs.length : Int)
          ++ VB ++ KB
      ∧ ∀ pre post,
          parse_by_type (fuel + 1) T (.mk dinfo Option.none [kt, vt])
              ⟨pre ++ B ++ post, pre.length⟩ =
            .ok (.list (pairs.map (fun p => .tup p.1 p.2)),
                 ⟨pre ++ B ++ post, pre.length + B.length⟩) := by
  simp only [unparse_by_type, TypeInfo.info, TypeInfo.subs, getTypeCode, hcode] at hun
  have hun2 : (do
      let prs ← tupList (pairs.map (fun (p : PyVal × PyVal) => PyVal.tup p.1 p.2))
      let valueBytes ← unparseValuesN fuel T (prs.map (fun (p : PyVal × PyVal) => p.2)) vt
      let keyBytes ← unparseValuesN fuel T (prs.map (fun (p : PyVal × PyVal) => p.1)) kt
      let dl ← writeInt32 ((valueBytes ++ keyBytes).length : Int)
      let cnt ← writeInt32
        (((pairs.map (fun (p : PyVal × PyVal) => PyVal.tup p.1 p.2)).length : Nat) : Int)
      (Except.ok (dl ++ cnt ++ valueBytes ++ keyBytes) : Except PyErr (List Nat))) = .ok B := hun
  clear hun
  rw [tupList_map_tup] at hun2
  simp only [bind, List.length_map] at hun2
  rename' hun2 => hun
  obtain ⟨prs, hprs, hun⟩ := except_bind_ok.mp hun
  injection hprs with hprs
  subst hprs
  obtain ⟨VB, hVB, hun⟩ := except_bind_ok.mp hun
  obtain ⟨KB, hKB, hun⟩ := except_bind_ok.mp hun
  obtain ⟨dl, hdl, hun⟩ := except_bind_ok.mp hun
  obtain ⟨cnt, hcnt, hun⟩ := except_bind_ok.mp hun
  injection hun with hun
  obtain ⟨hdl1, hdl2, hdleq⟩ := writeInt32_ok_iff.mp hdl
  obtain ⟨hcnt1, hcnt2, hcnteq⟩ := writeInt32_ok_iff.mp hcnt
  subst hdleq
  subst hcnteq
  subst hun
  refine ⟨VB, KB, hVB, hKB, by simp [List.append_assoc, List.length_append], ?_⟩
  intro pre post
  simp only [parse_by_type, TypeInfo.info, TypeInfo.subs, getTypeCode, hcode]
  show (do
      let (_, s1) ← readInt32
        ⟨pre ++ (encInt32 (((VB ++ KB).length : Nat) : Int) ++
          encInt32 (pairs.length : Int) ++ VB ++ KB) ++ post, pre.length⟩
      let (count, s2) ← readInt32 s1
      if count = -1 then Except.ok (PyVal.none, s2)
      else if count < 0 then Except.error PyErr.corruption
      else do
        let (vals, s3) ← parseValuesN fuel T vt count.toNat s2
        let (keys, s4) ← parseValuesN fuel T kt count.toNat s3
        Except.ok (PyVal.list ((keys.zip vals).map (fun (p : PyVal × PyVal) => PyVal.tup p.1 p.2)), s4)) = _
  rw [readInt32_at' (p := pre)
    (t := encInt32 (pairs.length : Int) ++ VB ++ KB ++ post)
    (by simp [List.append_assoc]) rfl hdl1 hdl2]
  simp only [bind, Except.bind]
  rw [readInt32_at' (p := pre ++ encInt32 (((VB ++ KB).length : Nat) : Int))
    (t := VB ++ KB ++ post)
    (by simp [List.append_assoc]) (by simp [encInt32_length]) hcnt1 hcnt2]
  have hne1 : ¬ ((pairs.length : Int)) = -1 := by omega
  have hnneg : ¬ ((pairs.length : Int)) < 0 := by omega
  simp only [hne1, hnneg, if_false, reduceIte]
  rw [show ((pairs.length : Int)).toNat = pairs.length from rfl]
  rw [parseValuesN_at' fuel T vt
    (p := pre ++ encInt32 (((VB ++ KB).length : Nat) : Int) ++
      encInt32 (pairs.length : Int)) (t := KB ++ post) hVB
    (by
      intro v hv
      obtain ⟨p, hp, hpv⟩ := List.mem_map.mp hv
      exact hpv ▸ hvrt p hp)
    (by simp [List.append_assoc]) (by simp only [List.length_append, encInt32_length])
    (List.length_map _ _).symm]
  simp only [bind, Except.bind]
  rw [parseValuesN_at' fuel T kt
    (p := pre ++ encInt32 (((VB ++ KB).length : Nat) : Int) ++
      encInt32 (pairs.length : Int) ++ VB) (t := post) hKB
    (by
      intro v hv
      obtain ⟨p, hp, hpv⟩ := List.mem_map.mp hv
      exact hpv ▸ hkrt p hp)
    (by simp [List.append_assoc]) (by simp only [List.length_append, encInt32_length])
    (List.length_map _ _).symm]
  simp only [bind, Except.bind]
  rw [List.zip_map']
  simp only [List.map_map, encInt32_length, List.length_append]
  have hmaps : List.map ((fun (p : PyVal × PyVal) => PyVal.tup p.1 p.2) ∘
      fun (a : PyVal × PyVal) => (a.1, a.2)) pairs =
      List.map (fun (p : PyVal × PyVal) => PyVal.tup p.1 p.2) pairs := by
    apply List.map_congr_left
    intro a _
    rfl
  rw [hmaps]
  simp [Nat.add_assoc]

end OniSave

namespace OniSave

/-- `Int32` values round-trip through the codec (the writer enforces the
range). -/
theorem unparseParses_int32 (fuel : Nat) (T : List TypeTemplate) (n : Int) :
    UnparseParses (fuel + 1) T tiInt32 (.int n) := by
  intro bs hb pre post
  simp only [unparse_by_type, tiInt32, TypeInfo.info, getTypeCode] at hb
  norm_num at hb
  obtain ⟨h1, h2, hbs⟩ := writeInt32_ok_iff.mp hb
  subst hbs
  simp only [parse_by_type, tiInt32, TypeInfo.info, getTypeCode]
  norm_num
  rw [readInt32_at' (p := pre) (t := post) rfl rfl h1 h2]
  simp [bind, Except.bind, encInt32_length]

/-- Non-null `String` values round-trip through the codec. -/
theorem unparseParses_str (fuel : Nat) (T : List TypeTemplate) (s : Str) :
    UnparseParses (fuel + 1) T tiString (.str s) := by
  intro bs hb pre post
  simp only [unparse_by_type, tiString, TypeInfo.info, getTypeCode] at hb
  norm_num [writeKleiString] at hb
  simp only [bind] at hb
  have hb2 : (writeInt32 (s.length : Int)).bind
      (fun lb => (Except.ok (lb ++ s) : Except PyErr (List Nat))) = .ok bs := hb
  clear hb
  obtain ⟨lb, hlb, hbs⟩ := except_bind_ok.mp hb2
  have hbs2 : lb ++ s = bs := Except.ok.inj hbs
  clear hbs
  obtain ⟨h1, h2, hlbeq⟩ := writeInt32_ok_iff.mp hlb
  subst hlbeq
  subst hbs2
  simp only [parse_by_type, tiString, TypeInfo.info, getTypeCode]
  norm_num
  rw [readKleiString_at' (p := pre) (t := post)
    (by simp [kleiBytes, List.append_assoc]) rfl h2]
  simp only [bind, Except.bind, kleiBytes, List.length_append, encInt32_length, Nat.add_assoc]

/-- Witness for the amended C7: the dictionary
`[("a", 100), ("b", 200)]` with `String` keys and `Int32` values writes and
parses back in order. -/
theorem dictionary_write_parse_order_witness :
    ∃ VB KB,
      unparseValuesN 1 []
          (([((PyVal.str [97] : PyVal), (PyVal.int 100 : PyVal)),
             (PyVal.str [98], PyVal.int 200)]).map (fun p => p.2)) tiInt32 = .ok VB
      ∧ unparseValuesN 1 []
          (([((PyVal.str [97] : PyVal), (PyVal.int 100 : PyVal)),
             (PyVal.str [98], PyVal.int 200)]).map (fun p => p.1)) tiString = .ok KB
      ∧ [18, 0, 0, 0, 2, 0, 0, 0, 100, 0, 0, 0, 200, 0, 0, 0, 1, 0, 0, 0, 97, 1, 0, 0, 0, 98] =
          encInt32 ((VB.length : Int) + (KB.length : Int)) ++ encInt32 (2 : Int) ++ VB ++ KB
      ∧ ∀ pre post,
          parse_by_type 2 [] (.mk 147 Option.none [tiString, tiInt32])
              ⟨pre ++ [18, 0, 0, 0, 2, 0, 0, 0, 100, 0, 0, 0, 200, 0, 0, 0,
                1, 0, 0, 0, 97, 1, 0, 0, 0, 98] ++ post, pre.length⟩ =
            .ok (.list (([((PyVal.str [97] : PyVal), (PyVal.int 100 : PyVal)),
                  (PyVal.str [98], PyVal.int 200)]).map (fun p => .tup p.1 p.2)),
                 ⟨pre ++ [18, 0, 0, 0, 2, 0, 0, 0, 100, 0, 0, 0, 200, 0, 0, 0,
                   1, 0, 0, 0, 97, 1, 0, 0, 0, 98] ++ post, pre.length + 26⟩) := by
  have h := dictionary_write_parse_order 1 [] tiString tiInt32 147
    [((PyVal.str [97] : PyVal), (PyVal.int 100 : PyVal)), (PyVal.str [98], PyVal.int 200)]
    [18, 0, 0, 0, 2, 0, 0, 0, 100, 0, 0, 0, 200, 0, 0, 0, 1, 0, 0, 0, 97, 1, 0, 0, 0, 98]
    (by decide) (by with_unfolding_all rfl)
    (by
      intro p hp
      have : p.1 = PyVal.str [97] ∨ p.1 = PyVal.str [98] := by
        simp only [List.mem_cons, List.mem_singleton, List.not_mem_nil, or_false] at hp
        rcases hp with h | h
        · rw [h]
          exact Or.inl rfl
        · rw [h]
          exact Or.inr rfl
      rcases this with h | h <;> rw [h]
      · exact unparseParses_str 0 [] [97]
      · exact unparseParses_str 0 [] [98])
    (by
      intro p hp
      have : p.2 = PyVal.int 100 ∨ p.2 = PyVal.int 200 := by
        simp only [List.mem_cons, List.mem_singleton, List.not_mem_nil, or_false] at hp
        rcases hp with h | h
        · rw [h]
          exact Or.inl rfl
        · rw [h]
          exact Or.inr rfl
      rcases this with h | h <;> rw [h]
      · exact unparseParses_int32 0 [] 100
      · exact unparseParses_int32 0 [] 200)
  exact h

end OniSave

namespace OniSave

/-! ## Claim C1 — byte-level round trip of an uncompressed save

The family below exercises the whole uncompressed envelope: a version-1
header around an arbitrary game info, a template table with the two
member-less root templates, empty world and settings objects, an arbitrary
sim blob, and arbitrary trailing bytes. -/

set_option maxRecDepth 2000000

/-- `Klei.SaveFileRoot` template with no members. -/
def tmplRoot0 : TypeTemplate := ⟨strSaveFileRoot, [], []⟩

/-- Header bytes the writer emits for build version 0, header version 1, the
compression flag clear, and the JSON region `jb`. -/
def headerBytes0 (jb : List Nat) : List Nat :=
  natLE 4 0 ++ natLE 4 jb.length ++ natLE 4 1 ++ natLE 4 0 ++ jb

/-- `SaveGameInfo.from_dict` inverts `to_dict`. -/
theorem gameInfoFromDict_toDict (gi : SaveGameInfo) :
    gameInfoFromDict (gameInfoToDict gi) = .ok gi := rfl

/-- `parse_header` over a canonical uncompressed header. -/
theorem parse_header_at {d : List Nat} {gi : SaveGameInfo} {jb rest : List Nat}
    (hd : d = headerBytes0 jb ++ rest)
    (hloads : jsonLoads jb = .ok (gameInfoToDict gi))
    (hjlen : jb.length < 2 ^ 32) :
    parse_header ⟨d, 0⟩ = .ok (⟨0, 1, false, gi⟩, ⟨d, 16 + jb.length⟩) := by
  have hd' : d = [] ++ (natLE 4 0 ++ (natLE 4 jb.length ++ (natLE 4 1 ++ (natLE 4 0 ++ (jb ++ rest))))) := by
    simp [hd, headerBytes0, List.append_assoc]
  simp only [parse_header, bind, Except.bind]
  rw [readUint32_at' (p := ([] : List Nat)) hd'
    (show (0 : Nat) = ([] : List Nat).length from rfl) (by norm_num)]
  norm_num
  rw [readUint32_at' (m := jb.length) (p := natLE 4 0) (t := natLE 4 1 ++ (natLE 4 0 ++ (jb ++ rest)))
    (by simp [hd', List.append_assoc])
    (show (4 : Nat) = (natLE 4 0).length from by simp [natLE_length]) hjlen]
  norm_num
  rw [readUint32_at' (m := 1) (p := natLE 4 0 ++ natLE 4 jb.length) (t := natLE 4 0 ++ (jb ++ rest))
    (by simp [hd', List.append_assoc])
    (show (8 : Nat) = (natLE 4 0 ++ natLE 4 jb.length).length from by simp [natLE_length])
    (by norm_num)]
  norm_num
  rw [readUint32_at' (m := 0) (p := natLE 4 0 ++ natLE 4 jb.length ++ natLE 4 1) (t := jb ++ rest)
    (by simp [hd', List.append_assoc])
    (show (12 : Nat) = (natLE 4 0 ++ natLE 4 jb.length ++ natLE 4 1).length from by
      simp [natLE_length])
    (by norm_num)]
  norm_num
  rw [bpRead_at' (p := natLE 4 0 ++ natLE 4 jb.length ++ natLE 4 1 ++ natLE 4 0) (u := jb)
    (t := rest) (by simp [hd', List.append_assoc])
    (show (16 : Nat) = (natLE 4 0 ++ natLE 4 jb.length ++ natLE 4 1 ++ natLE 4 0).length from by
      simp [natLE_length])
    rfl]
  norm_num
  rw [hloads]
  norm_num
  rw [gameInfoFromDict_toDict]

/-- Template-table bytes for the two member-less templates. -/
def tmplBytes0 : List Nat :=
  encInt32 2 ++ kleiBytes strSaveFileRoot ++ encInt32 0 ++ encInt32 0 ++
    kleiBytes strGameSettings ++ encInt32 0 ++ encInt32 0

/-- `parse_template` over the bytes of a member-less template. -/
theorem parse_template_empty_at (fuel : Nat) {d : List Nat} {k : Nat} {p t w : List Nat}
    (hd : d = p ++ ((kleiBytes w ++ (encInt32 0 ++ encInt32 0)) ++ t)) (hk : k = p.length)
    (hlen : (w.length : Int) < 2 ^ 31)
    (hval : validateDotnetIdentifierName (Option.some w) = .ok w) :
    parse_template fuel ⟨d, k⟩ = .ok (⟨w, [], []⟩, ⟨d, k + (12 + w.length)⟩) := by
  simp only [parse_template, bind, Except.bind]
  rw [readKleiString_at' (p := p) (t := encInt32 0 ++ (encInt32 0 ++ t))
    (by simp [hd, List.append_assoc]) hk hlen]
  norm_num
  rw [hval]
  norm_num
  rw [readInt32_at' (n := 0) (p := p ++ kleiBytes w) (t := encInt32 0 ++ t)
    (by simp [hd, List.append_assoc])
    (show k + 4 + w.length = (p ++ kleiBytes w).length from by
      simp [hk, kleiBytes, encInt32_length]
      omega)
    (by norm_num) (by norm_num)]
  norm_num
  rw [readInt32_at' (n := 0) (p := p ++ kleiBytes w ++ encInt32 0) (t := t)
    (by simp [hd, List.append_assoc])
    (show k + 4 + w.length + 4 = (p ++ kleiBytes w ++ encInt32 0).length from by
      simp [hk, kleiBytes, encInt32_length]
      omega)
    (by norm_num) (by norm_num)]
  norm_num [parseTemplateMembersN]
  omega

/-- `parse_templates` over `tmplBytes0`. -/
theorem parse_templates_at (fuel : Nat) {d : List Nat} {k : Nat} {p t : List Nat}
    (hd : d = p ++ (tmplBytes0 ++ t)) (hk : k = p.length) :
    parse_templates fuel ⟨d, k⟩ = .ok ([tmplRoot0, tmplSettings], ⟨d, k + 58⟩) := by
  simp only [parse_templates, bind, Except.bind]
  rw [readInt32_at' (n := 2) (p := p)
    (t := (kleiBytes strSaveFileRoot ++ (encInt32 0 ++ encInt32 0)) ++
      ((kleiBytes strGameSettings ++ (encInt32 0 ++ encInt32 0)) ++ t))
    (by simp [hd, tmplBytes0, List.append_assoc]) hk (by norm_num) (by norm_num)]
  norm_num
  rw [show ((2 : Int)).toNat = 0 + 1 + 1 from rfl]
  simp only [parseTemplatesN]
  simp only [bind, Except.bind]
  rw [parse_template_empty_at fuel (w := strSaveFileRoot) (p := p ++ encInt32 2)
    (t := (kleiBytes strGameSettings ++ (encInt32 0 ++ encInt32 0)) ++ t)
    (by simp [hd, tmplBytes0, List.append_assoc])
    (show k + 4 = (p ++ encInt32 2).length from by simp [hk, encInt32_length])
    (by decide) rfl]
  norm_num
  rw [parse_template_empty_at fuel (w := strGameSettings)
    (p := p ++ encInt32 2 ++ (kleiBytes strSaveFileRoot ++ (encInt32 0 ++ encInt32 0)))
    (t := t)
    (by simp [hd, tmplBytes0, List.append_assoc])
    (show k + 4 + (12 + strSaveFileRoot.length) =
        (p ++ encInt32 2 ++ (kleiBytes strSaveFileRoot ++ (encInt32 0 ++ encInt32 0))).length from by
      simp [hk, kleiBytes, encInt32_length]
      omega)
    (by decide) rfl]
  show _ = Except.ok ([tmplRoot0, tmplSettings], ⟨d, k + 58⟩)
  norm_num [tmplRoot0, tmplSettings]
  norm_num [strSaveFileRoot, strGameSettings]

/-- Body bytes for empty world and settings objects, the sim blob `sim`,
body version 7.35, no entity groups, and trailing bytes `gd`. -/
def bodyBytes0 (sim gd : List Nat) : List Nat :=
  kleiBytes strWorld ++ kleiBytes strSaveFileRoot ++ kleiBytes strGameSettings ++
    encInt32 (sim.length : Int) ++ sim ++ strKSAV ++ encInt32 7 ++ encInt32 35 ++
    encInt32 0 ++ gd

/-- Dropping exactly the prefix of a buffer leaves the tail. -/
theorem drop_at {d p t : List Nat} {k : Nat} (hd : d = p ++ t) (hk : k = p.length) :
    d.drop k = t := by
  subst hd
  subst hk
  exact List.drop_left p t

/-- `_parse_save_body` over `bodyBytes0`: empty objects, the sim blob, and
the trailing bytes recovered verbatim. -/
theorem parseSaveBody_at (fuel : Nat) {d : List Nat} {k : Nat} {p sim gd : List Nat}
    (hd : d = p ++ bodyBytes0 sim gd) (hk : k = p.length)
    (hslen : (sim.length : Int) < 2 ^ 31) :
    parseSaveBody (fuel + 1) [tmplRoot0, tmplSettings] ⟨d, k⟩ =
      .ok ([], [], sim, 7, 35, [], gd, ⟨d, k + (67 + sim.length)⟩) := by
  have hpbt : ∀ s : BP, parse_by_template (fuel + 1) [tmplRoot0, tmplSettings]
      strSaveFileRoot s = .ok ([], s) := by
    intro s
    simp only [parse_by_template]
    rw [show findTemplate [tmplRoot0, tmplSettings] strSaveFileRoot = Option.some tmplRoot0
      from rfl]
    simp [parseMembers, tmplRoot0, bind, Except.bind]
  have hpbt2 : ∀ s : BP, parse_by_template (fuel + 1) [tmplRoot0, tmplSettings]
      strGameSettings s = .ok ([], s) := by
    intro s
    simp only [parse_by_template]
    rw [show findTemplate [tmplRoot0, tmplSettings] strGameSettings = Option.some tmplSettings
      from rfl]
    simp [parseMembers, tmplSettings, bind, Except.bind]
  simp only [parseSaveBody, bind, Except.bind]
  rw [readKleiString_at' (s := strWorld) (p := p)
    (t := kleiBytes strSaveFileRoot ++ (kleiBytes strGameSettings ++ (encInt32 (sim.length : Int)
      ++ (sim ++ (strKSAV ++ (encInt32 7 ++ (encInt32 35 ++ (encInt32 0 ++ gd))))))))
    (by simp [hd, bodyBytes0, List.append_assoc]) hk (by decide)]
  norm_num
  rw [readKleiString_at' (s := strSaveFileRoot) (p := p ++ kleiBytes strWorld)
    (t := kleiBytes strGameSettings ++ (encInt32 (sim.length : Int)
      ++ (sim ++ (strKSAV ++ (encInt32 7 ++ (encInt32 35 ++ (encInt32 0 ++ gd)))))))
    (by simp [hd, bodyBytes0, List.append_assoc])
    (show k + 4 + strWorld.length = (p ++ kleiBytes strWorld).length from by
      simp [hk, kleiBytes, encInt32_length]
      omega)
    (by decide)]
  norm_num
  rw [show validateDotnetIdentifierName (Option.some strSaveFileRoot) = .ok strSaveFileRoot
    from rfl]
  norm_num
  rw [hpbt]
  norm_num
  rw [readKleiString_at' (s := strGameSettings)
    (p := p ++ kleiBytes strWorld ++ kleiBytes strSaveFileRoot)
    (t := encInt32 (sim.length : Int)
      ++ (sim ++ (strKSAV ++ (encInt32 7 ++ (encInt32 35 ++ (encInt32 0 ++ gd))))))
    (by simp [hd, bodyBytes0, List.append_assoc])
    (show k + 4 + strWorld.length + 4 + strSaveFileRoot.length =
        (p ++ kleiBytes strWorld ++ kleiBytes strSaveFileRoot).length from by
      simp [hk, kleiBytes, encInt32_length]
      omega)
    (by decide)]
  norm_num
  rw [show validateDotnetIdentifierName (Option.some strGameSettings) = .ok strGameSettings
    from rfl]
  norm_num
  rw [hpbt2]
  norm_num
  rw [readInt32_at' (n := (sim.length : Int))
    (p := p ++ kleiBytes strWorld ++ kleiBytes strSaveFileRoot ++ kleiBytes strGameSettings)
    (t := sim ++ (strKSAV ++ (encInt32 7 ++ (encInt32 35 ++ (encInt32 0 ++ gd)))))
    (by simp [hd, bodyBytes0, List.append_assoc])
    (show k + 4 + strWorld.length + 4 + strSaveFileRoot.length + 4 + strGameSettings.length =
        (p ++ kleiBytes strWorld ++ kleiBytes strSaveFileRoot ++
          kleiBytes strGameSettings).length from by
      simp [hk, kleiBytes, encInt32_length]
      omega)
    (by omega) hslen]
  norm_num
  simp only [readBytesInt]
  rw [if_pos (Int.natCast_nonneg sim.length)]
  rw [show ((sim.length : Int)).toNat = sim.length from Int.toNat_natCast _]
  rw [bpRead_at' (u := sim)
    (p := p ++ kleiBytes strWorld ++ kleiBytes strSaveFileRoot ++ kleiBytes strGameSettings ++
      encInt32 (sim.length : Int))
    (t := strKSAV ++ (encInt32 7 ++ (encInt32 35 ++ (encInt32 0 ++ gd))))
    (by simp [hd, bodyBytes0, List.append_assoc])
    (show k + 4 + strWorld.length + 4 + strSaveFileRoot.length + 4 + strGameSettings.length + 4 =
        (p ++ kleiBytes strWorld ++ kleiBytes strSaveFileRoot ++ kleiBytes strGameSettings ++
          encInt32 (sim.length : Int)).length from by
      simp [hk, kleiBytes, encInt32_length]
      omega)
    rfl]
  norm_num
  rw [show strKSAV.length = 4 from rfl]
  simp only [readChars, bind, Except.bind]
  rw [bpRead_at' (n := 4) (u := strKSAV)
    (p := p ++ kleiBytes strWorld ++ kleiBytes strSaveFileRoot ++ kleiBytes strGameSettings ++
      encInt32 (sim.length : Int) ++ sim)
    (t := encInt32 7 ++ (encInt32 35 ++ (encInt32 0 ++ gd)))
    (by simp [hd, bodyBytes0, List.append_assoc])
    (show k + 4 + strWorld.length + 4 + strSaveFileRoot.length + 4 + strGameSettings.length + 4 +
        sim.length = (p ++ kleiBytes strWorld ++ kleiBytes strSaveFileRoot ++
          kleiBytes strGameSettings ++ encInt32 (sim.length : Int) ++ sim).length from by
      simp [hk, kleiBytes, encInt32_length]
      omega)
    (by decide)]
  norm_num [strKSAV]
  rw [readInt32_at' (n := 7)
    (p := p ++ kleiBytes strWorld ++ kleiBytes strSaveFileRoot ++ kleiBytes strGameSettings ++
      encInt32 (sim.length : Int) ++ sim ++ strKSAV)
    (t := encInt32 35 ++ (encInt32 0 ++ gd))
    (by simp [hd, bodyBytes0, List.append_assoc])
    (show k + 4 + strWorld.length + 4 + strSaveFileRoot.length + 4 + strGameSettings.length + 4 +
        sim.length + 4 = (p ++ kleiBytes strWorld ++ kleiBytes strSaveFileRoot ++
          kleiBytes strGameSettings ++ encInt32 (sim.length : Int) ++ sim ++ strKSAV).length
      from by
      simp [hk, kleiBytes, encInt32_length, strKSAV]
      omega)
    (by norm_num) (by norm_num)]
  norm_num
  rw [readInt32_at' (n := 35)
    (p := p ++ kleiBytes strWorld ++ kleiBytes strSaveFileRoot ++ kleiBytes strGameSettings ++
      encInt32 (sim.length : Int) ++ sim ++ strKSAV ++ encInt32 7)
    (t := encInt32 0 ++ gd)
    (by simp [hd, bodyBytes0, List.append_assoc])
    (show k + 4 + strWorld.length + 4 + strSaveFileRoot.length + 4 + strGameSettings.length + 4 +
        sim.length + 4 + 4 = (p ++ kleiBytes strWorld ++ kleiBytes strSaveFileRoot ++
          kleiBytes strGameSettings ++ encInt32 (sim.length : Int) ++ sim ++ strKSAV ++
          encInt32 7).length
      from by
      simp [hk, kleiBytes, encInt32_length, strKSAV]
      omega)
    (by norm_num) (by norm_num)]
  norm_num
  simp only [parse_game_objects, bind, Except.bind]
  rw [readInt32_at' (n := 0)
    (p := p ++ kleiBytes strWorld ++ kleiBytes strSaveFileRoot ++ kleiBytes strGameSettings ++
      encInt32 (sim.length : Int) ++ sim ++ strKSAV ++ encInt32 7 ++ encInt32 35)
    (t := gd)
    (by simp [hd, bodyBytes0, List.append_assoc])
    (show k + 4 + strWorld.length + 4 + strSaveFileRoot.length + 4 + strGameSettings.length + 4 +
        sim.length + 4 + 4 + 4 = (p ++ kleiBytes strWorld ++ kleiBytes strSaveFileRoot ++
          kleiBytes strGameSettings ++ encInt32 (sim.length : Int) ++ sim ++ strKSAV ++
          encInt32 7 ++ encInt32 35).length
      from by
      simp [hk, kleiBytes, encInt32_length, strKSAV]
      omega)
    (by norm_num) (by norm_num)]
  norm_num
  simp only [parseGroupsN]
  norm_num
  rw [drop_at (p := p ++ kleiBytes strWorld ++ kleiBytes strSaveFileRoot ++
      kleiBytes strGameSettings ++ encInt32 (sim.length : Int) ++ sim ++ strKSAV ++
      encInt32 7 ++ encInt32 35 ++ encInt32 0) (t := gd)
    (by simp [hd, bodyBytes0, List.append_assoc])
    (show k + 4 + strWorld.length + 4 + strSaveFileRoot.length + 4 + strGameSettings.length + 4 +
        sim.length + 4 + 4 + 4 + 4 = (p ++ kleiBytes strWorld ++ kleiBytes strSaveFileRoot ++
          kleiBytes strGameSettings ++ encInt32 (sim.length : Int) ++ sim ++ strKSAV ++
          encInt32 7 ++ encInt32 35 ++ encInt32 0).length
      from by
      simp [hk, kleiBytes, encInt32_length, strKSAV]
      omega)]
  norm_num [strWorld, strSaveFileRoot, strGameSettings]
  omega


/-- The full uncompressed save byte string of the round-trip family. -/
def mkSaveBytes (jb sim gd : List Nat) : List Nat :=
  headerBytes0 jb ++ tmplBytes0 ++ bodyBytes0 sim gd

/-- The parse tree of `mkSaveBytes`. -/
def mkSaveGame (gi : SaveGameInfo) (sim gd : List Nat) : SaveGame :=
  ⟨⟨0, 1, false, gi⟩, [tmplRoot0, tmplSettings], [], [], sim, 7, 35, [], gd⟩

/-- `unparse_header` emits `headerBytes0` of the re-serialized JSON. -/
theorem unparse_header_at {gi : SaveGameInfo} {jb : List Nat}
    (hcanon : jsonDumps (gameInfoToDict gi) = jb)
    (hjlen : jb.length < 2 ^ 32) :
    unparse_header ⟨0, 1, false, gi⟩ = .ok (headerBytes0 jb) := by
  have hw : writeUint32 ((jb.length : Nat) : Int) = .ok (natLE 4 jb.length) := by
    simp only [writeUint32]
    rw [if_pos ⟨Int.natCast_nonneg _, by omega⟩, Int.toNat_natCast]
  simp only [unparse_header]
  rw [hcanon]
  refine except_bind_ok.mpr ⟨natLE 4 0, rfl, ?_⟩
  refine except_bind_ok.mpr ⟨natLE 4 jb.length, hw, ?_⟩
  refine except_bind_ok.mpr ⟨natLE 4 1, rfl, ?_⟩
  rw [if_pos (by norm_num : (1 : Int) ≤ 1)]
  refine except_bind_ok.mpr ⟨natLE 4 0, rfl, ?_⟩
  show Except.ok (natLE 4 0 ++ natLE 4 jb.length ++ natLE 4 1 ++ natLE 4 0 ++ jb) =
    Except.ok (headerBytes0 jb)
  rw [headerBytes0]

/-- `unparse_templates` on the two member-less templates emits `tmplBytes0`. -/
theorem unparse_templates_two (fuel : Nat) :
    unparse_templates fuel [tmplRoot0, tmplSettings] = .ok tmplBytes0 := rfl

/-- `_unparse_save_body` on `mkSaveGame` emits `bodyBytes0`. -/
theorem unparseSaveBody_at (fuel : Nat) {gi : SaveGameInfo} {sim gd : List Nat}
    (hslen : (sim.length : Int) < 2 ^ 31) :
    unparseSaveBody (fuel + 1) (mkSaveGame gi sim gd) = .ok (bodyBytes0 sim gd) := by
  have h1 : unparse_by_template (fuel + 1) [tmplRoot0, tmplSettings] strSaveFileRoot [] =
      .ok [] := by
    simp only [unparse_by_template]
    rw [show findTemplate [tmplRoot0, tmplSettings] strSaveFileRoot = Option.some tmplRoot0
      from rfl]
    simp [unparseMembers, tmplRoot0, bind, Except.bind]
  have h2 : unparse_by_template (fuel + 1) [tmplRoot0, tmplSettings] strGameSettings [] =
      .ok [] := by
    simp only [unparse_by_template]
    rw [show findTemplate [tmplRoot0, tmplSettings] strGameSettings = Option.some tmplSettings
      from rfl]
    simp [unparseMembers, tmplSettings, bind, Except.bind]
  have hw : writeInt32 ((sim.length : Nat) : Int) = .ok (encInt32 (sim.length : Int)) :=
    writeInt32_ok_iff.mpr ⟨by omega, hslen, rfl⟩
  simp only [unparseSaveBody, mkSaveGame]
  refine except_bind_ok.mpr ⟨kleiBytes strWorld, rfl, ?_⟩
  refine except_bind_ok.mpr ⟨kleiBytes strSaveFileRoot, rfl, ?_⟩
  refine except_bind_ok.mpr ⟨[], h1, ?_⟩
  refine except_bind_ok.mpr ⟨kleiBytes strGameSettings, rfl, ?_⟩
  refine except_bind_ok.mpr ⟨[], h2, ?_⟩
  refine except_bind_ok.mpr ⟨encInt32 (sim.length : Int), hw, ?_⟩
  refine except_bind_ok.mpr ⟨strKSAV, rfl, ?_⟩
  refine except_bind_ok.mpr ⟨encInt32 7, rfl, ?_⟩
  refine except_bind_ok.mpr ⟨encInt32 35, rfl, ?_⟩
  refine except_bind_ok.mpr ⟨encInt32 0, rfl, ?_⟩
  show Except.ok (kleiBytes strWorld ++ kleiBytes strSaveFileRoot ++ [] ++
      kleiBytes strGameSettings ++ [] ++ encInt32 (sim.length : Int) ++ sim ++ strKSAV ++
      encInt32 7 ++ encInt32 35 ++ encInt32 0 ++ gd) = Except.ok (bodyBytes0 sim gd)
  rw [bodyBytes0]
  norm_num

/-- `unparse_save_game` on `mkSaveGame` reproduces `mkSaveBytes` whenever the
JSON region is the canonical `json.dumps` serialization. -/
theorem unparse_save_game_at (fuel : Nat) {gi : SaveGameInfo} {jb sim gd : List Nat}
    (hcanon : jsonDumps (gameInfoToDict gi) = jb)
    (hjlen : jb.length < 2 ^ 32)
    (hslen : (sim.length : Int) < 2 ^ 31) :
    unparse_save_game id (fuel + 1) (mkSaveGame gi sim gd) = .ok (mkSaveBytes jb sim gd) := by
  simp only [unparse_save_game]
  refine except_bind_ok.mpr ⟨headerBytes0 jb, ?_, ?_⟩
  · exact unparse_header_at hcanon hjlen
  refine except_bind_ok.mpr ⟨tmplBytes0, unparse_templates_two (fuel + 1), ?_⟩
  refine except_bind_ok.mpr ⟨bodyBytes0 sim gd, unparseSaveBody_at fuel hslen, ?_⟩
  show Except.ok (headerBytes0 jb ++ tmplBytes0 ++
      (if (mkSaveGame gi sim gd).header.is_compressed then id (bodyBytes0 sim gd)
        else bodyBytes0 sim gd)) = _
  rw [show (mkSaveGame gi sim gd).header.is_compressed = false from rfl]
  rw [if_neg (by simp)]
  rw [mkSaveBytes]

/-- `parse_save_game` on `mkSaveBytes` yields `mkSaveGame` whenever the JSON
region decodes to the game info and the versions pass the gate. -/
theorem parse_save_game_at (fuel : Nat) {gi : SaveGameInfo} {jb sim gd : List Nat}
    (hloads : jsonLoads jb = .ok (gameInfoToDict gi))
    (hjlen : jb.length < 2 ^ 32)
    (hslen : (sim.length : Int) < 2 ^ 31)
    (hmaj : gi.save_major_version = 7)
    (hmin : gi.save_minor_version = 35) :
    parse_save_game noInflate true false (fuel + 1) (mkSaveBytes jb sim gd) =
      .ok (mkSaveGame gi sim gd) := by
  simp only [parse_save_game, bind, Except.bind]
  rw [parse_header_at (by rw [mkSaveBytes, List.append_assoc]) hloads hjlen]
  norm_num [hmaj, hmin]
  rw [parse_templates_at (fuel + 1) (p := headerBytes0 jb) (t := bodyBytes0 sim gd)
    (by rw [mkSaveBytes, List.append_assoc])
    (show 16 + jb.length = (headerBytes0 jb).length from by
      simp [headerBytes0, natLE_length]
      omega)]
  norm_num
  rw [parseSaveBody_at fuel (p := headerBytes0 jb ++ tmplBytes0)
    (by rw [mkSaveBytes])
    (show 16 + jb.length + 58 = (headerBytes0 jb ++ tmplBytes0).length from by
      simp [headerBytes0, tmplBytes0, natLE_length, kleiBytes, encInt32_length,
        strSaveFileRoot, strGameSettings]
      omega)
    hslen]
  norm_num [mkSaveGame]

/-- Amended claim C1: for the uncompressed save family `mkSaveBytes jb sim gd`
(arbitrary game info, sim blob and trailing bytes), the byte round trip
`unparse_save_game (parse_save_game S) = S` holds exactly when the header's
JSON region `jb` is the canonical `json.dumps` serialization of its own
parse: `unparse_header` re-serializes the decoded game info instead of
keeping the original bytes, so canonicity of the JSON region is both
sufficient (this theorem) and necessary (the counterexample
`save_round_trip_not_byte_exact`, where one extra JSON space is accepted by
the parser but lost by the writer). -/
theorem uncompressed_save_round_trip (fuel : Nat) (gi : SaveGameInfo) (jb sim gd : List Nat)
    (hcanon : jsonDumps (gameInfoToDict gi) = jb)
    (hloads : jsonLoads jb = .ok (gameInfoToDict gi))
    (hjlen : jb.length < 2 ^ 32)
    (hslen : (sim.length : Int) < 2 ^ 31)
    (hmaj : gi.save_major_version = 7)
    (hmin : gi.save_minor_version = 35) :
    parse_save_game noInflate true false (fuel + 1) (mkSaveBytes jb sim gd) =
      .ok (mkSaveGame gi sim gd)
    ∧ unparse_save_game id (fuel + 1) (mkSaveGame gi sim gd) = .ok (mkSaveBytes jb sim gd) :=
  ⟨parse_save_game_at fuel hloads hjlen hslen hmaj hmin,
   unparse_save_game_at fuel hcanon hjlen hslen⟩

/-- Canonical `json.dumps` serialization of `gameInfoToDict gi0` (checked
against `jsonDumps` in the witness below). -/
def json0 : List Nat :=
  [123, 34, 110, 117, 109, 98, 101, 114, 79, 102, 67, 121, 99, 108, 101, 115,
   34, 58, 32, 49, 44, 32, 34, 110, 117, 109, 98, 101, 114, 79, 102, 68, 117,
   112, 108, 105, 99, 97, 110, 116, 115, 34, 58, 32, 48, 44, 32, 34, 98, 97,
   115, 101, 78, 97, 109, 101, 34, 58, 32, 34, 98, 34, 44, 32, 34, 105, 115,
   65, 117, 116, 111, 83, 97, 118, 101, 34, 58, 32, 102, 97, 108, 115, 101,
   44, 32, 34, 111, 114, 105, 103, 105, 110, 97, 108, 83, 97, 118, 101, 78,
   97, 109, 101, 34, 58, 32, 34, 98, 34, 44, 32, 34, 115, 97, 118, 101, 77,
   97, 106, 111, 114, 86, 101, 114, 115, 105, 111, 110, 34, 58, 32, 55, 44,
   32, 34, 115, 97, 118, 101, 77, 105, 110, 111, 114, 86, 101, 114, 115, 105,
   111, 110, 34, 58, 32, 51, 53, 44, 32, 34, 99, 108, 117, 115, 116, 101,
   114, 73, 100, 34, 58, 32, 34, 99, 34, 44, 32, 34, 115, 97, 110, 100, 98,
   111, 120, 69, 110, 97, 98, 108, 101, 100, 34, 58, 32, 102, 97, 108, 115,
   101, 44, 32, 34, 99, 111, 108, 111, 110, 121, 71, 117, 105, 100, 34, 58,
   32, 34, 103, 34, 44, 32, 34, 100, 108, 99, 73, 100, 34, 58, 32, 34, 34,
   125]

/-- `json0` with one extra space inserted after the first colon: a different
byte string that `json.loads` decodes to the same dictionary. -/
def json1 : List Nat := json0.take 19 ++ [32] ++ json0.drop 19

/-- The member of the save family whose JSON region is canonical. -/
def save0 : List Nat := mkSaveBytes json0 [] []

/-- The same save with the non-canonical JSON region `json1`. -/
def save1 : List Nat := mkSaveBytes json1 [] []

/-- Witness discharging the round-trip family at `gi0`, `json0`, an empty sim
blob and no trailing bytes. -/
theorem uncompressed_save_round_trip_witness :
    jsonDumps (gameInfoToDict gi0) = json0
    ∧ jsonLoads json0 = .ok (gameInfoToDict gi0)
    ∧ json0.length < 2 ^ 32
    ∧ (([] : List Nat).length : Int) < 2 ^ 31
    ∧ gi0.save_major_version = 7
    ∧ gi0.save_minor_version = 35
    ∧ parse_save_game noInflate true false 3 (mkSaveBytes json0 [] []) =
        .ok (mkSaveGame gi0 [] [])
    ∧ unparse_save_game id 3 (mkSaveGame gi0 [] []) = .ok (mkSaveBytes json0 [] []) := by
  have h := uncompressed_save_round_trip 2 gi0 json0 [] [] (by with_unfolding_all rfl)
    (by with_unfolding_all rfl) (by decide) (by decide) rfl rfl
  exact ⟨by with_unfolding_all rfl, by with_unfolding_all rfl, by decide, by decide, rfl, rfl,
    h.1, h.2⟩

/-- Counterexample to claim C1 as stated (its "for EVERY well-formed save
byte string `S` that `parse_save_game` accepts, the uncompressed round trip
is bit-exact"): `save1` differs from `save0` only by one extra space inside
the header's game-info JSON region; `parse_save_game` accepts it, but
writing the parse back yields `save0`, not `save1` — `unparse_header`
re-serializes the game info with `json.dumps`, so the original JSON bytes
are not preserved and the round trip is not bit-exact. -/
theorem save_round_trip_not_byte_exact :
    parse_save_game noInflate true false 3 save1 = .ok (mkSaveGame gi0 [] [])
    ∧ (parse_save_game noInflate true false 3 save1 >>= unparse_save_game id 3) = .ok save0
    ∧ save0 ≠ save1 := by
  have hp : parse_save_game noInflate true false 3 save1 = .ok (mkSaveGame gi0 [] []) :=
    @parse_save_game_at 2 gi0 json1 [] [] (by with_unfolding_all rfl) (by decide) (by decide)
      rfl rfl
  have hu : unparse_save_game id 3 (mkSaveGame gi0 [] []) = .ok save0 :=
    @unparse_save_game_at 2 gi0 json0 [] [] (by with_unfolding_all rfl) (by decide) (by decide)
  refine ⟨hp, ?_, by decide⟩
  rw [hp]
  show unparse_save_game id 3 (mkSaveGame gi0 [] []) = .ok save0
  exact hu
end OniSave
